import Mathlib

/-!
Verification of the `bridge` module of mattmezza/neovide
(src/bridge/events.rs and src/bridge/mod.rs): a shallow embedding of the
msgpack-rpc redraw-event decoder and of the dispatch-loop batching policy,
with theorems checking the natural-language specification against the code.
-/

set_option linter.unusedVariables false

namespace Neovide

/-- The integer payload of a wire value, mirroring `rmpv::Integer`
(`IntPriv::PosInt(u64)` / `IntPriv::NegInt(i64)`; `NegInt` is only ever
constructed for negative values). -/
inductive WireInt where
  | posInt (n : Nat)
  | negInt (n : Int)
deriving DecidableEq, Repr

/-- `rmpv::Integer::as_u64`: a `PosInt` always converts, a `NegInt` never does. -/
def WireInt.as_u64 : WireInt → Option Nat
  | .posInt n => some n
  | .negInt _ => none

/-- `rmpv::Integer::as_i64`: a `PosInt` converts when it fits in `i64`
(`n ≤ 2^63 - 1`), a `NegInt` always converts. -/
def WireInt.as_i64 : WireInt → Option Int
  | .posInt n => if n ≤ 2 ^ 63 - 1 then some (n : Int) else none
  | .negInt n => some n

/-- `rmpv::Value`: the dynamically-typed wire value tree.  A string mirrors
`rmpv::Utf8String`, which internally is `Result<String, (Vec<u8>, Utf8Error)>`:
`Sum.inl` is a valid UTF-8 string, `Sum.inr` holds the raw bytes of an invalid
one.  Float payloads are carried as raw bit patterns; the decoder never
inspects them. -/
inductive Value where
  | Nil
  | Boolean (b : Bool)
  | Integer (i : WireInt)
  | F32 (bits : Nat)
  | F64 (bits : Nat)
  | Str (s : String ⊕ List Nat)
  | Bin (bytes : List Nat)
  | Array (elems : List Value)
  | Map (entries : List (Value × Value))
  | Ext (tag : Int) (data : List Nat)

/-- Shorthand for a valid UTF-8 wire string. -/
def vstr (s : String) : Value := .Str (.inl s)

/-- Shorthand for a nonnegative wire integer. -/
def vnat (n : Nat) : Value := .Integer (.posInt n)

/-- Shorthand for a negative wire integer. -/
def vneg (n : Int) : Value := .Integer (.negInt n)

/-- Wire-type discriminator: is this an integer wire value. -/
def Value.isInteger : Value → Bool
  | .Integer _ => true
  | _ => false

/-- Wire-type discriminator: is this a string wire value (valid or not). -/
def Value.isString : Value → Bool
  | .Str _ => true
  | _ => false

/-- Wire-type discriminator: is this a boolean wire value. -/
def Value.isBoolean : Value → Bool
  | .Boolean _ => true
  | _ => false

/-- Wire-type discriminator: is this an array wire value. -/
def Value.isArray : Value → Bool
  | .Array _ => true
  | _ => false

/-- Wire-type discriminator: is this a map wire value. -/
def Value.isMapValue : Value → Bool
  | .Map _ => true
  | _ => false

/-- `EventParseError` from src/bridge/events.rs: each variant except the last
carries the offending wire value. -/
inductive EventParseError where
  | InvalidArray (value : Value)
  | InvalidMap (value : Value)
  | InvalidString (value : Value)
  | InvalidU64 (value : Value)
  | InvalidI64 (value : Value)
  | InvalidBool (value : Value)
  | InvalidWindowAnchor (value : Value)
  | InvalidEventFormat

/-- The outcome of running a decoder function: `ok` / `err` mirror
`Result<T, EventParseError>`; `panic` models a Rust panic (reached through
`Option::unwrap` on `None`), which is not a `Result` value but an abnormal
termination of the computation. -/
inductive R (α : Type) where
  | ok (a : α)
  | err (e : EventParseError)
  | panic

namespace R

/-- Sequencing: `?` propagation of errors, and panic propagation by unwinding. -/
def bind : R α → (α → R β) → R β
  | .ok a, f => f a
  | .err e, _ => .err e
  | .panic, _ => .panic

instance : Monad R where
  pure := R.ok
  bind := R.bind

@[simp] theorem pure_eq (a : α) : (pure a : R α) = R.ok a := rfl

@[simp] theorem bind_ok (a : α) (f : α → R β) : (R.ok a >>= f) = f a := rfl

@[simp] theorem bind_err (e : EventParseError) (f : α → R β) :
    ((R.err e : R α) >>= f) = R.err e := rfl

@[simp] theorem bind_panic (f : α → R β) : ((R.panic : R α) >>= f) = R.panic := rfl

@[simp] theorem bind_eq_ok {x : R α} {f : α → R β} {b : β} :
    (x >>= f) = R.ok b ↔ ∃ a, x = R.ok a ∧ f a = R.ok b := by
  cases x <;> simp [Bind.bind, R.bind]

/-- `Result::ok()`: forget the error. -/
def toOption : R α → Option α
  | .ok a => some a
  | _ => none

/-- `Option::ok_or(err)`. -/
def fromOption (o : Option α) (e : EventParseError) : R α :=
  match o with
  | some a => .ok a
  | none => .err e

/-- `Option<Result<T,E>>::transpose()`. -/
def transposeOpt : Option (R α) → R (Option α)
  | none => .ok none
  | some (.ok a) => .ok (some a)
  | some (.err e) => .err e
  | some .panic => .panic

/-- `Option::unwrap()`: panics on `None`. -/
def unwrapOpt : Option α → R α
  | some a => .ok a
  | none => .panic

/-- `Iterator::collect::<Result<Vec<_>,_>>()` over a mapped list: stop at the
first error. -/
def mapList (f : α → R β) : List α → R (List β)
  | [] => .ok []
  | a :: rest => do
      let b ← f a
      let bs ← mapList f rest
      pure (b :: bs)

end R

/-- `skulpin::skia_safe::Color4f` (external crate): four color components.
The Rust components are `f32`; every component produced by this decoder is an
8-bit integer divided by 255.0, modelled exactly as a rational. -/
structure Color4f where
  r : ℚ
  g : ℚ
  b : ℚ
  a : ℚ

/-- Modelled from the spec: `Colors` is an external type owned by the
rendering layer (crate::editor, not under src/); the decoder only constructs
it from three optional packed colors (`Colors::new(foreground, background,
special)` and field access). -/
structure Colors where
  foreground : Option Color4f
  background : Option Color4f
  special : Option Color4f

/-- `Colors::new`, modelled from the spec: plain construction from the three
optional components. -/
def Colors.new (foreground background special : Option Color4f) : Colors :=
  ⟨foreground, background, special⟩

/-- Modelled from the spec: `Style` is an external type owned by the
rendering layer (crate::editor, not under src/).  Its fields are exactly
those the decoder populates in `parse_style`; `blend` is a `u8`. -/
structure Style where
  colors : Colors
  reverse : Bool
  italic : Bool
  bold : Bool
  strikethrough : Bool
  underline : Bool
  undercurl : Bool
  blend : Nat

/-- `Style::new(colors)`, modelled from the spec: a fresh style with the given
colors and every attribute unset. -/
def Style.new (colors : Colors) : Style :=
  ⟨colors, false, false, false, false, false, false, 0⟩

/-- Modelled from the spec: `CursorShape` is an external type owned by the
rendering layer (crate::editor, not under src/); the decoder only maps a tag
string into it via `CursorShape::from_type_name`.  Modelled as an opaque
wrapper of the tag string, since no claim depends on the mapping. -/
structure CursorShape where
  tag : String

/-- `CursorShape::from_type_name`, modelled from the spec: total map from the
wire tag to a shape. -/
def CursorShape.from_type_name (name : String) : CursorShape := ⟨name⟩

/-- Modelled from the spec: `CursorMode` is an external type owned by the
rendering layer (crate::editor, not under src/); fields are exactly those the
decoder populates in `parse_mode_info_set`.  `cell_percentage` is an `f32` in
Rust, modelled as a rational (its value is an integer divided by 100.0). -/
structure CursorMode where
  shape : CursorShape
  style_id : Option Nat
  cell_percentage : Option ℚ
  blinkwait : Option Nat
  blinkon : Option Nat
  blinkoff : Option Nat

/-- `CursorMode::default()`, modelled from the spec: all optional fields
unset. -/
def CursorMode.default : CursorMode :=
  ⟨⟨""⟩, none, none, none, none, none⟩

/-- `GridLineCell` from src/bridge/events.rs. -/
structure GridLineCell where
  text : String
  highlight_id : Option Nat
  «repeat» : Option Nat

/-- `StyledContent` from src/bridge/events.rs: ordered (highlight-id, text)
pairs. -/
def StyledContent : Type := List (Nat × String)

/-- `MessageKind` from src/bridge/events.rs. -/
inductive MessageKind where
  | Unknown
  | Confirm
  | ConfirmSubstitute
  | Error
  | Echo
  | EchoMessage
  | EchoError
  | LuaError
  | RpcError
  | ReturnPrompt
  | QuickFix
  | SearchCount
  | Warning

/-- `MessageKind::parse`: exact tag match, defaulting to `Unknown`. -/
def MessageKind.parse (kind : String) : MessageKind :=
  if kind = "confirm" then .Confirm
  else if kind = "confirm_sub" then .ConfirmSubstitute
  else if kind = "emsg" then .Error
  else if kind = "echo" then .Echo
  else if kind = "echomsg" then .EchoMessage
  else if kind = "echoerr" then .EchoError
  else if kind = "lua_error" then .LuaError
  else if kind = "rpc_error" then .RpcError
  else if kind = "return_prompt" then .ReturnPrompt
  else if kind = "quickfix" then .QuickFix
  else if kind = "search_count" then .SearchCount
  else if kind = "wmsg" then .Warning
  else .Unknown

/-- `GuiOption` from src/bridge/events.rs. -/
inductive GuiOption where
  | AribicShape (b : Bool)
  | AmbiWidth (s : String)
  | Emoji (b : Bool)
  | GuiFont (s : String)
  | GuiFontSet (s : String)
  | GuiFontWide (s : String)
  | LineSpace (n : Nat)
  | Pumblend (n : Nat)
  | ShowTabLine (n : Nat)
  | TermGuiColors (b : Bool)
  | Unknown (name : String) (value : Value)

/-- `WindowAnchor` from src/bridge/events.rs. -/
inductive WindowAnchor where
  | NorthWest
  | NorthEast
  | SouthWest
  | SouthEast

/-- `RedrawEvent` from src/bridge/events.rs: the closed tagged union of
decoded events. -/
inductive RedrawEvent where
  | SetTitle (title : String)
  | ModeInfoSet (cursor_modes : List CursorMode)
  | OptionSet (gui_option : GuiOption)
  | ModeChange (mode_index : Nat)
  | BusyStart
  | BusyStop
  | Flush
  | Resize (grid : Nat) (width : Nat) (height : Nat)
  | DefaultColorsSet (colors : Colors)
  | HighlightAttributesDefine (id : Nat) (style : Style)
  | GridLine (grid : Nat) (row : Nat) (column_start : Nat) (cells : List GridLineCell)
  | Clear (grid : Nat)
  | CursorGoto (grid : Nat) (row : Nat) (column : Nat)
  | Scroll (grid : Nat) (top : Nat) (bottom : Nat) (left : Nat) (right : Nat)
      (rows : Int) (columns : Int)
  | WindowPosition (grid : Nat) (window : Nat) (start_row : Nat)
      (start_column : Nat) (width : Nat) (height : Nat)
  | WindowFloatPosition (grid : Nat) (window : Nat) (anchor : WindowAnchor)
      (anchor_grid : Nat) (anchor_row : Nat) (anchor_column : Nat) (focusable : Bool)
  | WindowExternalPosition (grid : Nat) (window : Nat)
  | WindowHide (grid : Nat)
  | WindowClose (grid : Nat)
  | MessageSetPosition (grid : Nat) (row : Nat) (scrolled : Bool)
      (separator_character : String)
  | CommandLineShow (content : List (Nat × String)) (position : Nat)
      (first_character : String) (prompt : String) (indent : Nat) (level : Nat)
  | CommandLinePosition (position : Nat) (level : Nat)
  | CommandLineSpecialCharacter (character : String) (shift : Bool) (level : Nat)
  | CommandLineHide
  | CommandLineBlockShow (lines : List (List (Nat × String)))
  | CommandLineBlockAppend (line : List (Nat × String))
  | CommandLineBlockHide
  | MessageShow (kind : MessageKind) (content : List (Nat × String)) (replace_last : Bool)
  | MessageClear
  | MessageShowMode (content : List (Nat × String))
  | MessageShowCommand (content : List (Nat × String))
  | MessageRuler (content : List (Nat × String))
  | MessageHistoryShow (entries : List (MessageKind × List (Nat × String)))

/-- `unpack_color` from src/bridge/events.rs: truncate the packed integer to
32 bits (`as u32`), extract the three 8-bit channels by mask and shift, and
divide each by 255.0 with alpha fixed at 1.0.  The `f32` arithmetic is exact
up to the final division, which is modelled as exact rational division. -/
def unpack_color (packed_color : Nat) : Color4f :=
  let packed : Nat := packed_color % 2 ^ 32
  let r : Nat := (packed &&& 0xff0000) >>> 16
  let g : Nat := (packed &&& 0xff00) >>> 8
  let b : Nat := packed &&& 0xff
  { r := (r : ℚ) / 255
    g := (g : ℚ) / 255
    b := (b : ℚ) / 255
    a := 1 }

/-- `parse_array`. -/
def parse_array (array_value : Value) : R (List Value) :=
  match array_value with
  | .Array content => .ok content
  | v => .err (.InvalidArray v)

/-- `parse_map`. -/
def parse_map (map_value : Value) : R (List (Value × Value)) :=
  match map_value with
  | .Map content => .ok content
  | v => .err (.InvalidMap v)

/-- `parse_string`: requires a wire string whose bytes are valid UTF-8
(`Utf8String::as_str` returns `Some`). -/
def parse_string (string_value : Value) : R String :=
  match string_value with
  | .Str (.inl content) => .ok content
  | .Str (.inr _) => .err (.InvalidString string_value)
  | v => .err (.InvalidString v)

/-- `parse_u64`: requires an integer wire value convertible via `as_u64`. -/
def parse_u64 (u64_value : Value) : R Nat :=
  match u64_value with
  | .Integer content =>
      match content.as_u64 with
      | some n => .ok n
      | none => .err (.InvalidU64 u64_value)
  | v => .err (.InvalidU64 v)

/-- `parse_i64`: requires an integer wire value convertible via `as_i64`. -/
def parse_i64 (i64_value : Value) : R Int :=
  match i64_value with
  | .Integer content =>
      match content.as_i64 with
      | some n => .ok n
      | none => .err (.InvalidI64 i64_value)
  | v => .err (.InvalidI64 v)

/-- `parse_bool`. -/
def parse_bool (bool_value : Value) : R Bool :=
  match bool_value with
  | .Boolean content => .ok content
  | v => .err (.InvalidBool v)

/-- `parse_set_title`. -/
def parse_set_title (set_title_arguments : List Value) : R RedrawEvent :=
  match set_title_arguments with
  | [title] => do
      let t ← parse_string title
      pure (.SetTitle t)
  | _ => .err .InvalidEventFormat

/-- One iteration of the key/value loop in `parse_mode_info_set`: known keys
update the cursor mode, unknown keys are skipped; a key that is not a valid
string is a decode error (`parse_string(name)?`). -/
def cursor_mode_apply (mode_info : CursorMode) (entry : Value × Value) : R CursorMode := do
  let name ← parse_string entry.1
  if name = "cursor_shape" then do
    let s ← parse_string entry.2
    pure { mode_info with shape := CursorShape.from_type_name s }
  else if name = "cell_percentage" then do
    let n ← parse_u64 entry.2
    pure { mode_info with cell_percentage := some ((n : ℚ) / 100) }
  else if name = "blinkwait" then do
    let n ← parse_u64 entry.2
    pure { mode_info with blinkwait := some n }
  else if name = "blinkon" then do
    let n ← parse_u64 entry.2
    pure { mode_info with blinkon := some n }
  else if name = "blinkoff" then do
    let n ← parse_u64 entry.2
    pure { mode_info with blinkoff := some n }
  else if name = "attr_id" then do
    let n ← parse_u64 entry.2
    pure { mode_info with style_id := some n }
  else
    pure mode_info

/-- The key/value loop of `parse_mode_info_set`, threading the mutated
`CursorMode`. -/
def cursor_mode_fold : List (Value × Value) → CursorMode → R CursorMode
  | [], mode_info => .ok mode_info
  | entry :: rest, mode_info =>
      (cursor_mode_apply mode_info entry).bind (cursor_mode_fold rest)

/-- `parse_mode_info_set`: the first argument (`_cursor_style_enabled`) is
never inspected. -/
def parse_mode_info_set (mode_info_set_arguments : List Value) : R RedrawEvent :=
  match mode_info_set_arguments with
  | [_cursor_style_enabled, mode_info] => do
      let mode_info_values ← parse_array mode_info
      let cursor_modes ← R.mapList
        (fun mode_info_value => do
          let info_map ← parse_map mode_info_value
          cursor_mode_fold info_map CursorMode.default)
        mode_info_values
      pure (.ModeInfoSet cursor_modes)
  | _ => .err .InvalidEventFormat

/-- `parse_option_set`: known option names demand their payload type; an
unknown name is preserved losslessly as `GuiOption.Unknown`. -/
def parse_option_set (option_set_arguments : List Value) : R RedrawEvent :=
  match option_set_arguments with
  | [name, value] => do
      let n ← parse_string name
      let gui_option ←
        if n = "arabicshape" then do pure (GuiOption.AribicShape (← parse_bool value))
        else if n = "ambiwidth" then do pure (GuiOption.AmbiWidth (← parse_string value))
        else if n = "emoji" then do pure (GuiOption.Emoji (← parse_bool value))
        else if n = "guifont" then do pure (GuiOption.GuiFont (← parse_string value))
        else if n = "guifontset" then do pure (GuiOption.GuiFontSet (← parse_string value))
        else if n = "guifontwide" then do pure (GuiOption.GuiFontWide (← parse_string value))
        else if n = "linespace" then do pure (GuiOption.LineSpace (← parse_u64 value))
        else if n = "pumblend" then do pure (GuiOption.Pumblend (← parse_u64 value))
        else if n = "showtabline" then do pure (GuiOption.ShowTabLine (← parse_u64 value))
        else if n = "termguicolors" then do pure (GuiOption.TermGuiColors (← parse_bool value))
        else pure (GuiOption.Unknown n value)
      pure (.OptionSet gui_option)
  | _ => .err .InvalidEventFormat

/-- `parse_mode_change`: the first argument (`_mode`) is never inspected. -/
def parse_mode_change (mode_change_arguments : List Value) : R RedrawEvent :=
  match mode_change_arguments with
  | [_mode, mode_index] => do
      let n ← parse_u64 mode_index
      pure (.ModeChange n)
  | _ => .err .InvalidEventFormat

/-- `parse_grid_resize`. -/
def parse_grid_resize (grid_resize_arguments : List Value) : R RedrawEvent :=
  match grid_resize_arguments with
  | [grid_id, width, height] => do
      let g ← parse_u64 grid_id
      let w ← parse_u64 width
      let h ← parse_u64 height
      pure (.Resize g w h)
  | _ => .err .InvalidEventFormat

/-- `parse_default_colors`: the last two arguments (`_term_foreground`,
`_term_background`) are never inspected. -/
def parse_default_colors (default_colors_arguments : List Value) : R RedrawEvent :=
  match default_colors_arguments with
  | [foreground, background, special, _term_foreground, _term_background] => do
      let f ← parse_u64 foreground
      let b ← parse_u64 background
      let s ← parse_u64 special
      pure (.DefaultColorsSet
        (Colors.new (some (unpack_color f)) (some (unpack_color b)) (some (unpack_color s))))
  | _ => .err .InvalidEventFormat

/-- One iteration of the attribute loop in `parse_style`.  The scrutinee
`(name.as_str().unwrap(), value)` panics when the key string is not valid
UTF-8; the color and blend arms call `as_u64().unwrap()`, panicking for a
negative integer; `as u8` on the blend truncates modulo 256; every
unrecognized (name, value-shape) pair, and every non-string key, is skipped
with a diagnostic print. -/
def style_apply (style : Style) (attr_entry : Value × Value) : R Style :=
  match attr_entry with
  | (.Str (.inr _), _) => .panic
  | (.Str (.inl name), value) =>
      if name = "foreground" then
        match value with
        | .Integer packed_color => do
            let c ← R.unwrapOpt packed_color.as_u64
            pure { style with colors := { style.colors with foreground := some (unpack_color c) } }
        | _ => .ok style
      else if name = "background" then
        match value with
        | .Integer packed_color => do
            let c ← R.unwrapOpt packed_color.as_u64
            pure { style with colors := { style.colors with background := some (unpack_color c) } }
        | _ => .ok style
      else if name = "special" then
        match value with
        | .Integer packed_color => do
            let c ← R.unwrapOpt packed_color.as_u64
            pure { style with colors := { style.colors with special := some (unpack_color c) } }
        | _ => .ok style
      else if name = "reverse" then
        match value with
        | .Boolean reverse => .ok { style with reverse := reverse }
        | _ => .ok style
      else if name = "italic" then
        match value with
        | .Boolean italic => .ok { style with italic := italic }
        | _ => .ok style
      else if name = "bold" then
        match value with
        | .Boolean bold => .ok { style with bold := bold }
        | _ => .ok style
      else if name = "strikethrough" then
        match value with
        | .Boolean strikethrough => .ok { style with strikethrough := strikethrough }
        | _ => .ok style
      else if name = "underline" then
        match value with
        | .Boolean underline => .ok { style with underline := underline }
        | _ => .ok style
      else if name = "undercurl" then
        match value with
        | .Boolean undercurl => .ok { style with undercurl := undercurl }
        | _ => .ok style
      else if name = "blend" then
        match value with
        | .Integer blend => do
            let n ← R.unwrapOpt blend.as_u64
            pure { style with blend := n % 2 ^ 8 }
        | _ => .ok style
      else .ok style
  | _ => .ok style

/-- The attribute loop of `parse_style`, threading the mutated style. -/
def parse_style_fold : List (Value × Value) → Style → R Style
  | [], style => .ok style
  | attr_entry :: rest, style =>
      (style_apply style attr_entry).bind (parse_style_fold rest)

/-- `parse_style`. -/
def parse_style (style_map : Value) : R Style :=
  match style_map with
  | .Map attributes => parse_style_fold attributes (Style.new (Colors.new none none none))
  | v => .err (.InvalidMap v)

/-- `parse_hl_attr_define`: `parse_style(attributes)?` runs before
`parse_u64(id)?`; the last two arguments are never inspected. -/
def parse_hl_attr_define (hl_attr_define_arguments : List Value) : R RedrawEvent :=
  match hl_attr_define_arguments with
  | [id, attributes, _terminal_attributes, _info] => do
      let style ← parse_style attributes
      let i ← parse_u64 id
      pure (.HighlightAttributesDefine i style)
  | _ => .err .InvalidEventFormat

/-- `parse_grid_line_cell`: variable arity — the text is mandatory, the
highlight id and repeat count optional (`get(1)` / `get(2)` with
`transpose`), and elements past the third are never inspected. -/
def parse_grid_line_cell (grid_line_cell : Value) : R GridLineCell := do
  let cell_contents ← parse_array grid_line_cell
  let text_value ← R.fromOption cell_contents[0]? .InvalidEventFormat
  let text ← parse_string text_value
  let highlight_id ← R.transposeOpt (cell_contents[1]?.map parse_u64)
  let rep ← R.transposeOpt (cell_contents[2]?.map parse_u64)
  pure ⟨text, highlight_id, rep⟩

/-- `parse_grid_line`. -/
def parse_grid_line (grid_line_arguments : List Value) : R RedrawEvent :=
  match grid_line_arguments with
  | [grid_id, row, column_start, cells] => do
      let g ← parse_u64 grid_id
      let r ← parse_u64 row
      let c ← parse_u64 column_start
      let cs ← parse_array cells
      let parsed ← R.mapList parse_grid_line_cell cs
      pure (.GridLine g r c parsed)
  | _ => .err .InvalidEventFormat

/-- `parse_clear`. -/
def parse_clear (clear_arguments : List Value) : R RedrawEvent :=
  match clear_arguments with
  | [grid_id] => do
      let g ← parse_u64 grid_id
      pure (.Clear g)
  | _ => .err .InvalidEventFormat

/-- `parse_cursor_goto`: the wire order is (grid, column, row) but the struct
fields are evaluated in order grid, row, column. -/
def parse_cursor_goto (cursor_goto_arguments : List Value) : R RedrawEvent :=
  match cursor_goto_arguments with
  | [grid_id, column, row] => do
      let g ← parse_u64 grid_id
      let r ← parse_u64 row
      let c ← parse_u64 column
      pure (.CursorGoto g r c)
  | _ => .err .InvalidEventFormat

/-- `parse_grid_scroll`. -/
def parse_grid_scroll (grid_scroll_arguments : List Value) : R RedrawEvent :=
  match grid_scroll_arguments with
  | [grid_id, top, bottom, left, right, rows, columns] => do
      let g ← parse_u64 grid_id
      let t ← parse_u64 top
      let b ← parse_u64 bottom
      let l ← parse_u64 left
      let r ← parse_u64 right
      let rs ← parse_i64 rows
      let cs ← parse_i64 columns
      pure (.Scroll g t b l r rs cs)
  | _ => .err .InvalidEventFormat

/-- `parse_win_pos`. -/
def parse_win_pos (win_pos_arguments : List Value) : R RedrawEvent :=
  match win_pos_arguments with
  | [grid, window, start_row, start_column, width, height] => do
      let g ← parse_u64 grid
      let w ← parse_u64 window
      let sr ← parse_u64 start_row
      let sc ← parse_u64 start_column
      let wd ← parse_u64 width
      let ht ← parse_u64 height
      pure (.WindowPosition g w sr sc wd ht)
  | _ => .err .InvalidEventFormat

/-- `parse_window_anchor`: `parse_string(value).ok()` matched against the
four two-letter tags; anything else, including a failed string extraction,
is `InvalidWindowAnchor`. -/
def parse_window_anchor (value : Value) : R WindowAnchor :=
  match (parse_string value).toOption with
  | some s =>
      if s = "NW" then .ok .NorthWest
      else if s = "NE" then .ok .NorthEast
      else if s = "SW" then .ok .SouthWest
      else if s = "SE" then .ok .SouthEast
      else .err (.InvalidWindowAnchor value)
  | none => .err (.InvalidWindowAnchor value)

/-- `parse_win_float_pos`. -/
def parse_win_float_pos (win_float_pos_arguments : List Value) : R RedrawEvent :=
  match win_float_pos_arguments with
  | [grid, window, anchor, anchor_grid, anchor_row, anchor_column, focusable] => do
      let g ← parse_u64 grid
      let w ← parse_u64 window
      let a ← parse_window_anchor anchor
      let ag ← parse_u64 anchor_grid
      let ar ← parse_u64 anchor_row
      let ac ← parse_u64 anchor_column
      let f ← parse_bool focusable
      pure (.WindowFloatPosition g w a ag ar ac f)
  | _ => .err .InvalidEventFormat

/-- `parse_win_external_pos`. -/
def parse_win_external_pos (win_external_pos_arguments : List Value) : R RedrawEvent :=
  match win_external_pos_arguments with
  | [grid, window] => do
      let g ← parse_u64 grid
      let w ← parse_u64 window
      pure (.WindowExternalPosition g w)
  | _ => .err .InvalidEventFormat

/-- `parse_win_hide`. -/
def parse_win_hide (win_hide_arguments : List Value) : R RedrawEvent :=
  match win_hide_arguments with
  | [grid] => do
      let g ← parse_u64 grid
      pure (.WindowHide g)
  | _ => .err .InvalidEventFormat

/-- `parse_win_close`. -/
def parse_win_close (win_close_arguments : List Value) : R RedrawEvent :=
  match win_close_arguments with
  | [grid] => do
      let g ← parse_u64 grid
      pure (.WindowClose g)
  | _ => .err .InvalidEventFormat

/-- `parse_msg_set_pos`. -/
def parse_msg_set_pos (msg_set_pos_arguments : List Value) : R RedrawEvent :=
  match msg_set_pos_arguments with
  | [grid, row, scrolled, separator_character] => do
      let g ← parse_u64 grid
      let r ← parse_u64 row
      let s ← parse_bool scrolled
      let sep ← parse_string separator_character
      pure (.MessageSetPosition g r s sep)
  | _ => .err .InvalidEventFormat

/-- The per-pair body of `parse_styled_content`: each element must be a
two-element array `[style_id, text]`. -/
def parse_styled_pair (tuple : Value) : R (Nat × String) := do
  match ← parse_array tuple with
  | [style_id, text] => do
      let s ← parse_u64 style_id
      let t ← parse_string text
      pure (s, t)
  | _ => .err .InvalidEventFormat

/-- `parse_styled_content`. -/
def parse_styled_content (line : Value) : R (List (Nat × String)) := do
  let pairs ← parse_array line
  R.mapList parse_styled_pair pairs

/-- `parse_cmdline_show`. -/
def parse_cmdline_show (cmdline_show_arguments : List Value) : R RedrawEvent :=
  match cmdline_show_arguments with
  | [content, position, first_character, prompt, indent, level] => do
      let c ← parse_styled_content content
      let p ← parse_u64 position
      let fc ← parse_string first_character
      let pr ← parse_string prompt
      let ind ← parse_u64 indent
      let lv ← parse_u64 level
      pure (.CommandLineShow c p fc pr ind lv)
  | _ => .err .InvalidEventFormat

/-- `parse_cmdline_pos`. -/
def parse_cmdline_pos (cmdline_pos_arguments : List Value) : R RedrawEvent :=
  match cmdline_pos_arguments with
  | [position, level] => do
      let p ← parse_u64 position
      let lv ← parse_u64 level
      pure (.CommandLinePosition p lv)
  | _ => .err .InvalidEventFormat

/-- `parse_cmdline_special_char`. -/
def parse_cmdline_special_char (cmdline_special_char_arguments : List Value) : R RedrawEvent :=
  match cmdline_special_char_arguments with
  | [character, shift, level] => do
      let c ← parse_string character
      let s ← parse_bool shift
      let lv ← parse_u64 level
      pure (.CommandLineSpecialCharacter c s lv)
  | _ => .err .InvalidEventFormat

/-- `parse_cmdline_block_show`. -/
def parse_cmdline_block_show (cmdline_block_show_arguments : List Value) : R RedrawEvent :=
  match cmdline_block_show_arguments with
  | [lines] => do
      let ls ← parse_array lines
      let parsed ← R.mapList parse_styled_content ls
      pure (.CommandLineBlockShow parsed)
  | _ => .err .InvalidEventFormat

/-- `parse_cmdline_block_append`. -/
def parse_cmdline_block_append (cmdline_block_append_arguments : List Value) : R RedrawEvent :=
  match cmdline_block_append_arguments with
  | [line] => do
      let l ← parse_styled_content line
      pure (.CommandLineBlockAppend l)
  | _ => .err .InvalidEventFormat

/-- `parse_msg_show`. -/
def parse_msg_show (msg_show_arguments : List Value) : R RedrawEvent :=
  match msg_show_arguments with
  | [kind, content, replace_last] => do
      let k ← parse_string kind
      let c ← parse_styled_content content
      let r ← parse_bool replace_last
      pure (.MessageShow (MessageKind.parse k) c r)
  | _ => .err .InvalidEventFormat

/-- `parse_msg_showmode`. -/
def parse_msg_showmode (msg_showmode_arguments : List Value) : R RedrawEvent :=
  match msg_showmode_arguments with
  | [content] => do
      let c ← parse_styled_content content
      pure (.MessageShowMode c)
  | _ => .err .InvalidEventFormat

/-- `parse_msg_showcmd`. -/
def parse_msg_showcmd (msg_showcmd_arguments : List Value) : R RedrawEvent :=
  match msg_showcmd_arguments with
  | [content] => do
      let c ← parse_styled_content content
      pure (.MessageShowCommand c)
  | _ => .err .InvalidEventFormat

/-- `parse_msg_ruler`. -/
def parse_msg_ruler (msg_ruler_arguments : List Value) : R RedrawEvent :=
  match msg_ruler_arguments with
  | [content] => do
      let c ← parse_styled_content content
      pure (.MessageRuler c)
  | _ => .err .InvalidEventFormat

/-- `parse_msg_history_entry`. -/
def parse_msg_history_entry (entry : Value) : R (MessageKind × List (Nat × String)) := do
  match ← parse_array entry with
  | [kind, content] => do
      let k ← parse_string kind
      let c ← parse_styled_content content
      pure (MessageKind.parse k, c)
  | _ => .err .InvalidEventFormat

/-- `parse_msg_history_show`. -/
def parse_msg_history_show (msg_history_show_arguments : List Value) : R RedrawEvent :=
  match msg_history_show_arguments with
  | [entries] => do
      let es ← parse_array entries
      let parsed ← R.mapList parse_msg_history_entry es
      pure (.MessageHistoryShow parsed)
  | _ => .err .InvalidEventFormat

/-- The name-dispatch match inside `parse_redraw_event`: recognized tags with
arguments call their parser, the six nullary tags produce their event without
looking at the batch, and `set_icon` plus every unknown tag produce
nothing. -/
def parse_redraw_event_dispatch (event_name : String) (event_parameters : List Value) :
    R (Option RedrawEvent) :=
  if event_name = "set_title" then do pure (some (← parse_set_title event_parameters))
  else if event_name = "set_icon" then .ok none
  else if event_name = "mode_info_set" then do pure (some (← parse_mode_info_set event_parameters))
  else if event_name = "option_set" then do pure (some (← parse_option_set event_parameters))
  else if event_name = "mode_change" then do pure (some (← parse_mode_change event_parameters))
  else if event_name = "busy_start" then .ok (some .BusyStart)
  else if event_name = "busy_stop" then .ok (some .BusyStop)
  else if event_name = "flush" then .ok (some .Flush)
  else if event_name = "grid_resize" then do pure (some (← parse_grid_resize event_parameters))
  else if event_name = "default_colors_set" then do pure (some (← parse_default_colors event_parameters))
  else if event_name = "hl_attr_define" then do pure (some (← parse_hl_attr_define event_parameters))
  else if event_name = "grid_line" then do pure (some (← parse_grid_line event_parameters))
  else if event_name = "grid_clear" then do pure (some (← parse_clear event_parameters))
  else if event_name = "grid_cursor_goto" then do pure (some (← parse_cursor_goto event_parameters))
  else if event_name = "grid_scroll" then do pure (some (← parse_grid_scroll event_parameters))
  else if event_name = "win_pos" then do pure (some (← parse_win_pos event_parameters))
  else if event_name = "win_float_pos" then do pure (some (← parse_win_float_pos event_parameters))
  else if event_name = "win_external_pos" then do pure (some (← parse_win_external_pos event_parameters))
  else if event_name = "win_hide" then do pure (some (← parse_win_hide event_parameters))
  else if event_name = "win_close" then do pure (some (← parse_win_close event_parameters))
  else if event_name = "msg_set_pos" then do pure (some (← parse_msg_set_pos event_parameters))
  else if event_name = "cmdline_show" then do pure (some (← parse_cmdline_show event_parameters))
  else if event_name = "cmdline_pos" then do pure (some (← parse_cmdline_pos event_parameters))
  else if event_name = "cmdline_special_char" then do pure (some (← parse_cmdline_special_char event_parameters))
  else if event_name = "cmdline_hide" then .ok (some .CommandLineHide)
  else if event_name = "cmdline_block_show" then do pure (some (← parse_cmdline_block_show event_parameters))
  else if event_name = "cmdline_block_append" then do pure (some (← parse_cmdline_block_append event_parameters))
  else if event_name = "cmdline_block_hide" then .ok (some .CommandLineBlockHide)
  else if event_name = "msg_show" then do pure (some (← parse_msg_show event_parameters))
  else if event_name = "msg_clear" then .ok (some .MessageClear)
  else if event_name = "msg_showmode" then do pure (some (← parse_msg_showmode event_parameters))
  else if event_name = "msg_showcmd" then do pure (some (← parse_msg_showcmd event_parameters))
  else if event_name = "msg_ruler" then do pure (some (← parse_msg_ruler event_parameters))
  else if event_name = "msg_history_show" then do pure (some (← parse_msg_history_show event_parameters))
  else .ok none

/-- The batch loop of `parse_redraw_event`: every batch must itself be an
array (`parse_array(&event)?`), and decoded events are collected in order. -/
def parse_redraw_event_batches (event_name : String) : List Value → R (List RedrawEvent)
  | [] => .ok []
  | event :: rest => do
      let event_parameters ← parse_array event
      let possible_parsed_event ← parse_redraw_event_dispatch event_name event_parameters
      let tail ← parse_redraw_event_batches event_name rest
      match possible_parsed_event with
      | some parsed_event => pure (parsed_event :: tail)
      | none => pure tail

/-- `parse_redraw_event`: extract the event name from element 0, then decode
every remaining element as one batch of that event. -/
def parse_redraw_event (event_value : Value) : R (List RedrawEvent) := do
  let event_contents ← parse_array event_value
  let name_value ← R.fromOption event_contents[0]? .InvalidEventFormat
  let event_name ← parse_string name_value
  parse_redraw_event_batches event_name (event_contents.drop 1)

/-- The argument loop of `parse_neovim_event` for the "redraw" case:
`resulting_events.append(&mut parse_redraw_event(event)?)` per element. -/
def parse_neovim_event_loop : List Value → R (List RedrawEvent)
  | [] => .ok []
  | event :: rest => do
      let evs ← parse_redraw_event event
      let tail ← parse_neovim_event_loop rest
      pure (evs ++ tail)

/-- `parse_neovim_event`: only the "redraw" notification produces events;
every other name is logged and yields an empty sequence. -/
def parse_neovim_event (event_name : String) (arguments : List Value) : R (List RedrawEvent) :=
  if event_name = "redraw" then parse_neovim_event_loop arguments
  else .ok []

/-- Modelled from the spec: `UiCommand` is an external type
(src/bridge/ui_commands.rs, not present under src/); the dispatch loop uses
only the "is this a resize command" predicate, so resize commands are
modelled with their dimensions and all other commands opaquely. -/
inductive UiCommand where
  | resize (width height : Nat)
  | other (id : Nat)
deriving DecidableEq

/-- Modelled from the spec: the resize predicate on commands. -/
def UiCommand.is_resize : UiCommand → Bool
  | .resize _ _ => true
  | .other _ => false

/-- The batching policy of the dispatch loop in `start_process`
(src/bridge/mod.rs lines 95-108): partition the drained batch by
`is_resize`, keep only the last element of the resize partition
(`into_iter().last()`), and submit it (when present) followed by the
non-resize partition (`chain`). -/
def batch_submission_order (commands : List UiCommand) : List UiCommand :=
  let parts := commands.partition (fun command => command.is_resize)
  parts.1.getLast?.toList ++ parts.2

/-- The submission order as the spec words it: the last resize command of the
batch first (if any resize is present), followed by all non-resize commands
in their original relative order; every earlier resize command is
discarded. -/
def spec_submission_order (commands : List UiCommand) : List UiCommand :=
  (commands.reverse.find? (fun command => command.is_resize)).toList ++
    commands.filter (fun command => !command.is_resize)

/-- The event names for which the dispatch match of `parse_redraw_event`
produces an event (`Some(..)` arms); `set_icon` is deliberately absent, since
its arm produces nothing. -/
def recognized_tags : List String :=
  ["set_title", "mode_info_set", "option_set", "mode_change", "busy_start",
   "busy_stop", "flush", "grid_resize", "default_colors_set", "hl_attr_define",
   "grid_line", "grid_clear", "grid_cursor_goto", "grid_scroll", "win_pos",
   "win_float_pos", "win_external_pos", "win_hide", "win_close", "msg_set_pos",
   "cmdline_show", "cmdline_pos", "cmdline_special_char", "cmdline_hide",
   "cmdline_block_show", "cmdline_block_append", "cmdline_block_hide",
   "msg_show", "msg_clear", "msg_showmode", "msg_showcmd", "msg_ruler",
   "msg_history_show"]

end Neovide

namespace Neovide

@[simp] theorem parse_array_ok (l : List Value) : parse_array (.Array l) = .ok l := rfl

@[simp] theorem parse_u64_vnat (n : Nat) : parse_u64 (vnat n) = .ok n := rfl

@[simp] theorem parse_string_vstr (s : String) : parse_string (vstr s) = .ok s := rfl

@[simp] theorem parse_bool_ok (b : Bool) : parse_bool (.Boolean b) = .ok b := rfl

@[simp] theorem parse_u64_nil : parse_u64 .Nil = .err (.InvalidU64 .Nil) := rfl

@[simp] theorem parse_i64_nil : parse_i64 .Nil = .err (.InvalidI64 .Nil) := rfl

@[simp] theorem parse_string_nil : parse_string .Nil = .err (.InvalidString .Nil) := rfl

@[simp] theorem parse_bool_nil : parse_bool .Nil = .err (.InvalidBool .Nil) := rfl

@[simp] theorem parse_array_nil : parse_array .Nil = .err (.InvalidArray .Nil) := rfl

@[simp] theorem parse_map_nil : parse_map .Nil = .err (.InvalidMap .Nil) := rfl

@[simp] theorem parse_style_nil : parse_style .Nil = .err (.InvalidMap .Nil) := rfl

@[simp] theorem parse_styled_content_nil :
    parse_styled_content .Nil = .err (.InvalidArray .Nil) := rfl

@[simp] theorem parse_window_anchor_nil :
    parse_window_anchor .Nil = .err (.InvalidWindowAnchor .Nil) := rfl

theorem head?_filter_eq_find? (p : α → Bool) (l : List α) :
    (l.filter p).head? = l.find? p := by
  induction l with
  | nil => rfl
  | cons a t ih => by_cases h : p a <;> simp [List.filter_cons, List.find?_cons, h, ih]

theorem getLast?_filter_eq_find?_reverse (p : α → Bool) (l : List α) :
    (l.filter p).getLast? = l.reverse.find? p := by
  rw [← List.head?_reverse, ← List.filter_reverse, head?_filter_eq_find?]

/-- Claim C3: within one drained batch, the submission order is the last
resize command of the batch (earlier resizes discarded) followed by the
non-resize commands in their original relative order; in particular the batch
[Resize(a), Other(1), Resize(b), Other(2)] is submitted as
[Resize(b), Other(1), Other(2)]. -/
theorem dispatch_batch_coalesces_resize :
    (∀ commands : List UiCommand,
      batch_submission_order commands = spec_submission_order commands) ∧
    ∀ aw ah bw bh n1 n2 : Nat,
      batch_submission_order
          [.resize aw ah, .other n1, .resize bw bh, .other n2] =
        [.resize bw bh, .other n1, .other n2] := by
  constructor
  · intro commands
    simp only [batch_submission_order, spec_submission_order,
      List.partition_eq_filter_filter, getLast?_filter_eq_find?_reverse]
    have hcomp : (not ∘ fun command : UiCommand => command.is_resize) =
        fun command : UiCommand => !command.is_resize := rfl
    rw [hcomp]
  · intro aw ah bw bh n1 n2
    rfl

/-- Claim C5: a `grid_resize` batch of three unsigned integers decodes to
exactly the `Resize` event with the same grid, width and height; in
particular [1, 80, 24] decodes to Resize{grid:1, width:80, height:24}. -/
theorem grid_resize_decodes_exactly :
    (∀ g w h : Nat,
      parse_grid_resize [vnat g, vnat w, vnat h] = .ok (.Resize g w h)) ∧
    parse_grid_resize [vnat 1, vnat 80, vnat 24] = .ok (.Resize 1 80 24) := by
  exact ⟨fun g w h => rfl, rfl⟩

theorem and_byte_mask_shift (p k : Nat) :
    (p &&& (255 <<< k)) >>> k = p / 2 ^ k % 2 ^ 8 := by
  calc (p &&& 255 <<< k) >>> k = (p >>> k) &&& 255 := by
        apply Nat.eq_of_testBit_eq
        intro i
        simp [Nat.testBit_shiftRight, Nat.testBit_and, Nat.testBit_shiftLeft,
          Nat.add_sub_cancel_left]
    _ = (p >>> k) % 2 ^ 8 := by
        rw [(by norm_num : (255 : ℕ) = 2 ^ 8 - 1), Nat.and_pow_two_sub_one_eq_mod]
    _ = p / 2 ^ k % 2 ^ 8 := by rw [Nat.shiftRight_eq_div_pow]

/-- Claim C6: `unpack_color` truncates to 32 bits, takes red from bits 16-23,
green from bits 8-15, blue from bits 0-7, each divided by 255.0, with alpha
exactly 1.0; and the three pure-channel examples. -/
theorem unpack_color_extracts_rgb_bytes :
    (∀ n : Nat,
      unpack_color n =
        { r := ((n % 2 ^ 32 / 2 ^ 16 % 2 ^ 8 : Nat) : ℚ) / 255
          g := ((n % 2 ^ 32 / 2 ^ 8 % 2 ^ 8 : Nat) : ℚ) / 255
          b := ((n % 2 ^ 32 % 2 ^ 8 : Nat) : ℚ) / 255
          a := 1 }) ∧
    unpack_color 0xFF0000 = { r := 1, g := 0, b := 0, a := 1 } ∧
    unpack_color 0x00FF00 = { r := 0, g := 1, b := 0, a := 1 } ∧
    unpack_color 0x0000FF = { r := 0, g := 0, b := 1, a := 1 } := by
  have hgen : ∀ n : Nat,
      unpack_color n =
        { r := ((n % 2 ^ 32 / 2 ^ 16 % 2 ^ 8 : Nat) : ℚ) / 255
          g := ((n % 2 ^ 32 / 2 ^ 8 % 2 ^ 8 : Nat) : ℚ) / 255
          b := ((n % 2 ^ 32 % 2 ^ 8 : Nat) : ℚ) / 255
          a := 1 } := by
    intro n
    have h16 : (0xff0000 : Nat) = 255 <<< 16 := by norm_num [Nat.shiftLeft_eq]
    have h8 : (0xff00 : Nat) = 255 <<< 8 := by norm_num [Nat.shiftLeft_eq]
    have hb : ∀ m : Nat, m &&& 0xff = m % 2 ^ 8 := fun m => by
      rw [(by norm_num : (0xff : ℕ) = 2 ^ 8 - 1), Nat.and_pow_two_sub_one_eq_mod]
    simp only [unpack_color, h16, h8, and_byte_mask_shift, hb]
  refine ⟨hgen, ?_, ?_, ?_⟩ <;> rw [hgen] <;> norm_num

/-- Claim C7: window-anchor parsing maps exactly "NW"/"NE"/"SW"/"SE" to the
four anchors and rejects every other wire value with
`InvalidWindowAnchor`. -/
theorem window_anchor_parsing_exact :
    parse_window_anchor (vstr "NW") = .ok .NorthWest ∧
    parse_window_anchor (vstr "NE") = .ok .NorthEast ∧
    parse_window_anchor (vstr "SW") = .ok .SouthWest ∧
    parse_window_anchor (vstr "SE") = .ok .SouthEast ∧
    ∀ v : Value, v ≠ vstr "NW" → v ≠ vstr "NE" → v ≠ vstr "SW" → v ≠ vstr "SE" →
      parse_window_anchor v = .err (.InvalidWindowAnchor v) := by
  refine ⟨rfl, rfl, rfl, rfl, ?_⟩
  intro v h1 h2 h3 h4
  cases v with
  | Str s =>
      cases s with
      | inl str =>
          simp only [vstr, ne_eq, Value.Str.injEq, Sum.inl.injEq] at h1 h2 h3 h4
          simp [parse_window_anchor, parse_string, R.toOption, h1, h2, h3, h4]
      | inr bytes => rfl
  | Nil => rfl
  | Boolean b => rfl
  | Integer i => rfl
  | F32 bits => rfl
  | F64 bits => rfl
  | Bin bytes => rfl
  | Array elems => rfl
  | Map entries => rfl
  | Ext tag data => rfl

/-- Closed instance of the rejection half of the window-anchor theorem. -/
theorem window_anchor_parsing_exact_witness :
    parse_window_anchor (vstr "N") = .err (.InvalidWindowAnchor (vstr "N")) :=
  window_anchor_parsing_exact.2.2.2.2 (vstr "N")
    (by simp [vstr]) (by simp [vstr]) (by simp [vstr]) (by simp [vstr])

theorem styled_pairs_map_ok (l : List (Nat × String)) :
    R.mapList parse_styled_pair
        (l.map (fun p => Value.Array [vnat p.1, vstr p.2])) = .ok l := by
  induction l with
  | nil => rfl
  | cons p rest ih =>
      simp [R.mapList, parse_styled_pair, ih]

/-- Claim C8: `parse_styled_content` on an array of well-formed
[highlight-id, text] pairs returns exactly those pairs, order and pairing
preserved; in particular [[3,"ab"],[4,"cd"]] yields [(3,"ab"),(4,"cd")]. -/
theorem styled_content_preserves_order :
    (∀ l : List (Nat × String),
      parse_styled_content (.Array (l.map (fun p => Value.Array [vnat p.1, vstr p.2]))) =
        .ok l) ∧
    parse_styled_content
        (.Array [.Array [vnat 3, vstr "ab"], .Array [vnat 4, vstr "cd"]]) =
      .ok [(3, "ab"), (4, "cd")] := by
  constructor
  · intro l
    simp [parse_styled_content, parse_array, styled_pairs_map_ok l]
  · rfl

/-- Claim C9: the narrowing adapters demand an exact wire-type match and
reject integers that do not fit: `parse_u64` errors on every negative integer
and every non-integer, `parse_i64` errors on every integer above the signed
64-bit maximum and every non-integer. -/
theorem narrowing_rejects_out_of_range :
    (∀ n : Int, n < 0 → parse_u64 (vneg n) = .err (.InvalidU64 (vneg n))) ∧
    (∀ v : Value, (∀ i : WireInt, v ≠ .Integer i) →
      parse_u64 v = .err (.InvalidU64 v)) ∧
    (∀ n : Nat, 2 ^ 63 - 1 < n → parse_i64 (vnat n) = .err (.InvalidI64 (vnat n))) ∧
    (∀ v : Value, (∀ i : WireInt, v ≠ .Integer i) →
      parse_i64 v = .err (.InvalidI64 v)) := by
  refine ⟨fun n _ => rfl, ?_, ?_, ?_⟩
  · intro v h
    cases v with
    | Integer i => exact absurd rfl (h i)
    | Nil => rfl
    | Boolean b => rfl
    | F32 bits => rfl
    | F64 bits => rfl
    | Str s => rfl
    | Bin bytes => rfl
    | Array elems => rfl
    | Map entries => rfl
    | Ext tag data => rfl
  · intro n h
    have hn : ¬ n ≤ 9223372036854775807 := by omega
    simp [parse_i64, vnat, WireInt.as_i64, hn]
  · intro v h
    cases v with
    | Integer i => exact absurd rfl (h i)
    | Nil => rfl
    | Boolean b => rfl
    | F32 bits => rfl
    | F64 bits => rfl
    | Str s => rfl
    | Bin bytes => rfl
    | Array elems => rfl
    | Map entries => rfl
    | Ext tag data => rfl

/-- Closed instances of all four rejection statements of the narrowing
theorem. -/
theorem narrowing_rejects_out_of_range_witness :
    parse_u64 (vneg (-1)) = .err (.InvalidU64 (vneg (-1))) ∧
    parse_u64 Value.Nil = .err (.InvalidU64 .Nil) ∧
    parse_i64 (vnat (2 ^ 63)) = .err (.InvalidI64 (vnat (2 ^ 63))) ∧
    parse_i64 (.Boolean true) = .err (.InvalidI64 (.Boolean true)) :=
  ⟨narrowing_rejects_out_of_range.1 (-1) (by norm_num),
   narrowing_rejects_out_of_range.2.1 .Nil (fun i => by simp),
   narrowing_rejects_out_of_range.2.2.1 (2 ^ 63) (by norm_num),
   narrowing_rejects_out_of_range.2.2.2 (.Boolean true) (fun i => by simp)⟩

/-- Claim C10: grid-line cells have variable arity — text alone, text plus
highlight id, or text, highlight id and repeat count with any further
elements ignored; the optional fields are `none` exactly when the element is
absent, and the empty cell is a decode error. -/
theorem grid_line_cell_variable_arity :
    (∀ t : String, parse_grid_line_cell (.Array [vstr t]) = .ok ⟨t, none, none⟩) ∧
    (∀ (t : String) (h : Nat),
      parse_grid_line_cell (.Array [vstr t, vnat h]) = .ok ⟨t, some h, none⟩) ∧
    (∀ (t : String) (h r : Nat) (extra : List Value),
      parse_grid_line_cell (.Array ([vstr t, vnat h, vnat r] ++ extra)) =
        .ok ⟨t, some h, some r⟩) ∧
    parse_grid_line_cell (.Array []) = .err .InvalidEventFormat := by
  refine ⟨fun t => rfl, fun t h => rfl, ?_, rfl⟩
  intro t h r extra
  simp [parse_grid_line_cell, parse_array, R.fromOption, parse_string, parse_u64,
    R.transposeOpt, vstr, vnat, WireInt.as_u64]

/-- Claim C2 (evidence of the code bug): decoding is NOT total — `parse_style`
reaches `Option::unwrap` panics for a negative packed color and for a
non-UTF-8 map key, and the panic is reachable through a complete
"redraw"/"hl_attr_define" notification. -/
theorem decode_panics_on_hostile_style :
    parse_style (.Map [(vstr "foreground", vneg (-1))]) = .panic ∧
    parse_style (.Map [(.Str (.inr [255]), .Boolean true)]) = .panic ∧
    parse_neovim_event "redraw"
        [.Array [vstr "hl_attr_define",
          .Array [vnat 1, .Map [(vstr "foreground", vneg (-1))], .Map [], .Map []]]] =
      .panic :=
  ⟨rfl, rfl, rfl⟩

/-- Counterexample to claim C4 as stated: an event element under the ignored
name "set_icon" whose batch is not an array yields a decode error, not an
empty result. -/
theorem set_icon_non_array_batch_errors :
    parse_redraw_event (.Array [vstr "set_icon", vnat 42]) =
      .err (.InvalidArray (vnat 42)) := rfl

theorem dispatch_unknown_tag (name : String) (h : name ∉ recognized_tags)
    (ps : List Value) : parse_redraw_event_dispatch name ps = .ok none := by
  simp only [recognized_tags, List.mem_cons, List.not_mem_nil, or_false] at h
  push_neg at h
  simp [parse_redraw_event_dispatch, h]

/-- Claim C4 as amended: every top-level notification name other than
"redraw" decodes to an empty event sequence without error regardless of the
arguments; and within a "redraw" notification, an event element whose name is
not in the recognized catalog contributes no events and no error, provided
each of its batches is an array (a non-array batch is a decode error even
under an unrecognized name). -/
theorem unknown_names_ignored :
    (∀ (name : String) (args : List Value), name ≠ "redraw" →
      parse_neovim_event name args = .ok []) ∧
    ∀ name : String, name ∉ recognized_tags → ∀ batches : List (List Value),
      parse_redraw_event (.Array (vstr name :: batches.map Value.Array)) = .ok [] := by
  constructor
  · intro name args h
    simp [parse_neovim_event, h]
  · intro name h batches
    have hb : parse_redraw_event_batches name (batches.map Value.Array) = .ok [] := by
      induction batches with
      | nil => rfl
      | cons b rest ih =>
          simp [parse_redraw_event_batches, dispatch_unknown_tag name h, ih]
    simp [parse_redraw_event, R.fromOption, hb]

/-- Closed instances of both halves of the ignored-names theorem. -/
theorem unknown_names_ignored_witness :
    parse_neovim_event "nvim_buf_lines_event" [vnat 7] = .ok [] ∧
    parse_redraw_event (.Array [vstr "set_icon", .Array [vnat 1]]) = .ok [] :=
  ⟨unknown_names_ignored.1 "nvim_buf_lines_event" [vnat 7] (by decide),
   by
    have h := unknown_names_ignored.2 "set_icon" (by decide) [[vnat 1]]
    simpa using h⟩

theorem arity_err_set_title (args : List Value) (h : args.length ≠ 1) :
    parse_set_title args = .err .InvalidEventFormat := by
  rcases args with _ | ⟨x1, _ | ⟨x2, t⟩⟩ <;> simp_all [parse_set_title]

theorem arity_err_mode_info_set (args : List Value) (h : args.length ≠ 2) :
    parse_mode_info_set args = .err .InvalidEventFormat := by
  rcases args with _ | ⟨x1, _ | ⟨x2, _ | ⟨x3, t⟩⟩⟩ <;> simp_all [parse_mode_info_set]

theorem arity_err_option_set (args : List Value) (h : args.length ≠ 2) :
    parse_option_set args = .err .InvalidEventFormat := by
  rcases args with _ | ⟨x1, _ | ⟨x2, _ | ⟨x3, t⟩⟩⟩ <;> simp_all [parse_option_set]

theorem arity_err_mode_change (args : List Value) (h : args.length ≠ 2) :
    parse_mode_change args = .err .InvalidEventFormat := by
  rcases args with _ | ⟨x1, _ | ⟨x2, _ | ⟨x3, t⟩⟩⟩ <;> simp_all [parse_mode_change]

theorem arity_err_grid_resize (args : List Value) (h : args.length ≠ 3) :
    parse_grid_resize args = .err .InvalidEventFormat := by
  rcases args with _ | ⟨x1, _ | ⟨x2, _ | ⟨x3, _ | ⟨x4, t⟩⟩⟩⟩ <;> simp_all [parse_grid_resize]

theorem arity_err_default_colors (args : List Value) (h : args.length ≠ 5) :
    parse_default_colors args = .err .InvalidEventFormat := by
  rcases args with _ | ⟨x1, _ | ⟨x2, _ | ⟨x3, _ | ⟨x4, _ | ⟨x5, _ | ⟨x6, t⟩⟩⟩⟩⟩⟩ <;> simp_all [parse_default_colors]

theorem arity_err_hl_attr_define (args : List Value) (h : args.length ≠ 4) :
    parse_hl_attr_define args = .err .InvalidEventFormat := by
  rcases args with _ | ⟨x1, _ | ⟨x2, _ | ⟨x3, _ | ⟨x4, _ | ⟨x5, t⟩⟩⟩⟩⟩ <;> simp_all [parse_hl_attr_define]

theorem arity_err_grid_line (args : List Value) (h : args.length ≠ 4) :
    parse_grid_line args = .err .InvalidEventFormat := by
  rcases args with _ | ⟨x1, _ | ⟨x2, _ | ⟨x3, _ | ⟨x4, _ | ⟨x5, t⟩⟩⟩⟩⟩ <;> simp_all [parse_grid_line]

theorem arity_err_clear (args : List Value) (h : args.length ≠ 1) :
    parse_clear args = .err .InvalidEventFormat := by
  rcases args with _ | ⟨x1, _ | ⟨x2, t⟩⟩ <;> simp_all [parse_clear]

theorem arity_err_cursor_goto (args : List Value) (h : args.length ≠ 3) :
    parse_cursor_goto args = .err .InvalidEventFormat := by
  rcases args with _ | ⟨x1, _ | ⟨x2, _ | ⟨x3, _ | ⟨x4, t⟩⟩⟩⟩ <;> simp_all [parse_cursor_goto]

theorem arity_err_grid_scroll (args : List Value) (h : args.length ≠ 7) :
    parse_grid_scroll args = .err .InvalidEventFormat := by
  rcases args with _ | ⟨x1, _ | ⟨x2, _ | ⟨x3, _ | ⟨x4, _ | ⟨x5, _ | ⟨x6, _ | ⟨x7, _ | ⟨x8, t⟩⟩⟩⟩⟩⟩⟩⟩ <;> simp_all [parse_grid_scroll]

theorem arity_err_win_pos (args : List Value) (h : args.length ≠ 6) :
    parse_win_pos args = .err .InvalidEventFormat := by
  rcases args with _ | ⟨x1, _ | ⟨x2, _ | ⟨x3, _ | ⟨x4, _ | ⟨x5, _ | ⟨x6, _ | ⟨x7, t⟩⟩⟩⟩⟩⟩⟩ <;> simp_all [parse_win_pos]

theorem arity_err_win_float_pos (args : List Value) (h : args.length ≠ 7) :
    parse_win_float_pos args = .err .InvalidEventFormat := by
  rcases args with _ | ⟨x1, _ | ⟨x2, _ | ⟨x3, _ | ⟨x4, _ | ⟨x5, _ | ⟨x6, _ | ⟨x7, _ | ⟨x8, t⟩⟩⟩⟩⟩⟩⟩⟩ <;> simp_all [parse_win_float_pos]

theorem arity_err_win_external_pos (args : List Value) (h : args.length ≠ 2) :
    parse_win_external_pos args = .err .InvalidEventFormat := by
  rcases args with _ | ⟨x1, _ | ⟨x2, _ | ⟨x3, t⟩⟩⟩ <;> simp_all [parse_win_external_pos]

theorem arity_err_win_hide (args : List Value) (h : args.length ≠ 1) :
    parse_win_hide args = .err .InvalidEventFormat := by
  rcases args with _ | ⟨x1, _ | ⟨x2, t⟩⟩ <;> simp_all [parse_win_hide]

theorem arity_err_win_close (args : List Value) (h : args.length ≠ 1) :
    parse_win_close args = .err .InvalidEventFormat := by
  rcases args with _ | ⟨x1, _ | ⟨x2, t⟩⟩ <;> simp_all [parse_win_close]

theorem arity_err_msg_set_pos (args : List Value) (h : args.length ≠ 4) :
    parse_msg_set_pos args = .err .InvalidEventFormat := by
  rcases args with _ | ⟨x1, _ | ⟨x2, _ | ⟨x3, _ | ⟨x4, _ | ⟨x5, t⟩⟩⟩⟩⟩ <;> simp_all [parse_msg_set_pos]

theorem arity_err_cmdline_show (args : List Value) (h : args.length ≠ 6) :
    parse_cmdline_show args = .err .InvalidEventFormat := by
  rcases args with _ | ⟨x1, _ | ⟨x2, _ | ⟨x3, _ | ⟨x4, _ | ⟨x5, _ | ⟨x6, _ | ⟨x7, t⟩⟩⟩⟩⟩⟩⟩ <;> simp_all [parse_cmdline_show]

theorem arity_err_cmdline_pos (args : List Value) (h : args.length ≠ 2) :
    parse_cmdline_pos args = .err .InvalidEventFormat := by
  rcases args with _ | ⟨x1, _ | ⟨x2, _ | ⟨x3, t⟩⟩⟩ <;> simp_all [parse_cmdline_pos]

theorem arity_err_cmdline_special_char (args : List Value) (h : args.length ≠ 3) :
    parse_cmdline_special_char args = .err .InvalidEventFormat := by
  rcases args with _ | ⟨x1, _ | ⟨x2, _ | ⟨x3, _ | ⟨x4, t⟩⟩⟩⟩ <;> simp_all [parse_cmdline_special_char]

theorem arity_err_cmdline_block_show (args : List Value) (h : args.length ≠ 1) :
    parse_cmdline_block_show args = .err .InvalidEventFormat := by
  rcases args with _ | ⟨x1, _ | ⟨x2, t⟩⟩ <;> simp_all [parse_cmdline_block_show]

theorem arity_err_cmdline_block_append (args : List Value) (h : args.length ≠ 1) :
    parse_cmdline_block_append args = .err .InvalidEventFormat := by
  rcases args with _ | ⟨x1, _ | ⟨x2, t⟩⟩ <;> simp_all [parse_cmdline_block_append]

theorem arity_err_msg_show (args : List Value) (h : args.length ≠ 3) :
    parse_msg_show args = .err .InvalidEventFormat := by
  rcases args with _ | ⟨x1, _ | ⟨x2, _ | ⟨x3, _ | ⟨x4, t⟩⟩⟩⟩ <;> simp_all [parse_msg_show]

theorem arity_err_msg_showmode (args : List Value) (h : args.length ≠ 1) :
    parse_msg_showmode args = .err .InvalidEventFormat := by
  rcases args with _ | ⟨x1, _ | ⟨x2, t⟩⟩ <;> simp_all [parse_msg_showmode]

theorem arity_err_msg_showcmd (args : List Value) (h : args.length ≠ 1) :
    parse_msg_showcmd args = .err .InvalidEventFormat := by
  rcases args with _ | ⟨x1, _ | ⟨x2, t⟩⟩ <;> simp_all [parse_msg_showcmd]

theorem arity_err_msg_ruler (args : List Value) (h : args.length ≠ 1) :
    parse_msg_ruler args = .err .InvalidEventFormat := by
  rcases args with _ | ⟨x1, _ | ⟨x2, t⟩⟩ <;> simp_all [parse_msg_ruler]

theorem arity_err_msg_history_show (args : List Value) (h : args.length ≠ 1) :
    parse_msg_history_show args = .err .InvalidEventFormat := by
  rcases args with _ | ⟨x1, _ | ⟨x2, t⟩⟩ <;> simp_all [parse_msg_history_show]

@[simp] theorem R.bind_eq_panic {x : R α} {f : α → R β} :
    (x >>= f) = R.panic ↔ x = R.panic ∨ ∃ a, x = R.ok a ∧ f a = R.panic := by
  cases x <;> simp [Bind.bind, R.bind]

theorem R.err_of_ne (x : R α) (hok : ∀ a, x ≠ .ok a) (hp : ¬ x = .panic) :
    ∃ er, x = .err er := by
  cases x with
  | ok a => exact absurd rfl (hok a)
  | err e => exact ⟨e, rfl⟩
  | panic => exact absurd rfl hp

theorem parse_u64_wrong_type (v : Value) (h : v.isInteger = false) :
    parse_u64 v = .err (.InvalidU64 v) := by
  cases v <;> simp_all [parse_u64, Value.isInteger]

theorem parse_i64_wrong_type (v : Value) (h : v.isInteger = false) :
    parse_i64 v = .err (.InvalidI64 v) := by
  cases v <;> simp_all [parse_i64, Value.isInteger]

theorem parse_string_wrong_type (v : Value) (h : v.isString = false) :
    parse_string v = .err (.InvalidString v) := by
  cases v <;> simp_all [parse_string, Value.isString]

theorem parse_bool_wrong_type (v : Value) (h : v.isBoolean = false) :
    parse_bool v = .err (.InvalidBool v) := by
  cases v <;> simp_all [parse_bool, Value.isBoolean]

theorem parse_array_wrong_type (v : Value) (h : v.isArray = false) :
    parse_array v = .err (.InvalidArray v) := by
  cases v <;> simp_all [parse_array, Value.isArray]

theorem parse_style_wrong_type (v : Value) (h : v.isMapValue = false) :
    parse_style v = .err (.InvalidMap v) := by
  cases v <;> simp_all [parse_style, Value.isMapValue]

theorem parse_styled_content_wrong_type (v : Value) (h : v.isArray = false) :
    parse_styled_content v = .err (.InvalidArray v) := by
  simp [parse_styled_content, parse_array_wrong_type v h]

theorem parse_window_anchor_wrong_type (v : Value) (h : v.isString = false) :
    parse_window_anchor v = .err (.InvalidWindowAnchor v) := by
  cases v <;> simp_all [parse_window_anchor, parse_string, R.toOption, Value.isString]

@[simp] theorem parse_u64_ne_panic (v : Value) : ¬ parse_u64 v = R.panic := by
  unfold parse_u64
  split <;> (try split) <;> simp

@[simp] theorem parse_i64_ne_panic (v : Value) : ¬ parse_i64 v = R.panic := by
  unfold parse_i64
  split <;> (try split) <;> simp

@[simp] theorem parse_string_ne_panic (v : Value) : ¬ parse_string v = R.panic := by
  unfold parse_string
  split <;> simp

@[simp] theorem parse_bool_ne_panic (v : Value) : ¬ parse_bool v = R.panic := by
  unfold parse_bool
  split <;> simp

@[simp] theorem parse_array_ne_panic (v : Value) : ¬ parse_array v = R.panic := by
  unfold parse_array
  split <;> simp

@[simp] theorem parse_window_anchor_ne_panic (v : Value) :
    ¬ parse_window_anchor v = R.panic := by
  unfold parse_window_anchor
  split
  · split_ifs <;> simp
  · simp

@[simp] theorem parse_styled_pair_ne_panic (v : Value) :
    ¬ parse_styled_pair v = R.panic := by
  unfold parse_styled_pair
  simp
  intro l hl
  split <;> simp

@[simp] theorem mapList_styled_ne_panic (l : List Value) :
    ¬ R.mapList parse_styled_pair l = R.panic := by
  induction l with
  | nil => simp [R.mapList]
  | cons a t ih => simp [R.mapList, ih]

@[simp] theorem parse_styled_content_ne_panic (v : Value) :
    ¬ parse_styled_content v = R.panic := by
  simp [parse_styled_content]

@[simp] theorem fromOption_ne_panic (o : Option α) (e : EventParseError) :
    ¬ R.fromOption o e = R.panic := by
  cases o <;> simp [R.fromOption]

@[simp] theorem transposeOpt_map_u64_ne_panic (o : Option Value) :
    ¬ R.transposeOpt (o.map parse_u64) = R.panic := by
  cases o with
  | none => simp [R.transposeOpt]
  | some v =>
      cases h : parse_u64 v with
      | ok n => simp [R.transposeOpt, h]
      | err e => simp [R.transposeOpt, h]
      | panic => exact absurd h (parse_u64_ne_panic v)

@[simp] theorem parse_grid_line_cell_ne_panic (v : Value) :
    ¬ parse_grid_line_cell v = R.panic := by
  simp [parse_grid_line_cell]

@[simp] theorem mapList_grid_cell_ne_panic (l : List Value) :
    ¬ R.mapList parse_grid_line_cell l = R.panic := by
  induction l with
  | nil => simp [R.mapList]
  | cons a t ih => simp [R.mapList, ih]

theorem nopanic_grid_resize (a b c : Value) :
    ¬ parse_grid_resize [a, b, c] = R.panic := by
  simp [parse_grid_resize]

theorem nook_grid_resize (a b c : Value)
    (h : a.isInteger = false ∨ b.isInteger = false ∨ c.isInteger = false)
    (ev : RedrawEvent) : parse_grid_resize [a, b, c] ≠ .ok ev := by
  rcases h with h | h | h <;>
    simp [parse_grid_resize, parse_u64_wrong_type, parse_i64_wrong_type, parse_string_wrong_type,
      parse_bool_wrong_type, parse_array_wrong_type,
      parse_styled_content_wrong_type, parse_window_anchor_wrong_type, h]

theorem typeck_grid_resize (a b c : Value)
    (h : a.isInteger = false ∨ b.isInteger = false ∨ c.isInteger = false) :
    ∃ er, parse_grid_resize [a, b, c] = .err er :=
  R.err_of_ne _ (fun ev => nook_grid_resize a b c h ev) (nopanic_grid_resize a b c)

theorem nopanic_default_colors (a b c d e : Value) :
    ¬ parse_default_colors [a, b, c, d, e] = R.panic := by
  simp [parse_default_colors]

theorem nook_default_colors (a b c d e : Value)
    (h : a.isInteger = false ∨ b.isInteger = false ∨ c.isInteger = false)
    (ev : RedrawEvent) : parse_default_colors [a, b, c, d, e] ≠ .ok ev := by
  rcases h with h | h | h <;>
    simp [parse_default_colors, parse_u64_wrong_type, parse_i64_wrong_type, parse_string_wrong_type,
      parse_bool_wrong_type, parse_array_wrong_type,
      parse_styled_content_wrong_type, parse_window_anchor_wrong_type, h]

theorem typeck_default_colors (a b c d e : Value)
    (h : a.isInteger = false ∨ b.isInteger = false ∨ c.isInteger = false) :
    ∃ er, parse_default_colors [a, b, c, d, e] = .err er :=
  R.err_of_ne _ (fun ev => nook_default_colors a b c d e h ev) (nopanic_default_colors a b c d e)

theorem nopanic_grid_line (a b c d : Value) :
    ¬ parse_grid_line [a, b, c, d] = R.panic := by
  simp [parse_grid_line]

theorem nook_grid_line (a b c d : Value)
    (h : a.isInteger = false ∨ b.isInteger = false ∨ c.isInteger = false ∨ d.isArray = false)
    (ev : RedrawEvent) : parse_grid_line [a, b, c, d] ≠ .ok ev := by
  rcases h with h | h | h | h <;>
    simp [parse_grid_line, parse_u64_wrong_type, parse_i64_wrong_type, parse_string_wrong_type,
      parse_bool_wrong_type, parse_array_wrong_type,
      parse_styled_content_wrong_type, parse_window_anchor_wrong_type, h]

theorem typeck_grid_line (a b c d : Value)
    (h : a.isInteger = false ∨ b.isInteger = false ∨ c.isInteger = false ∨ d.isArray = false) :
    ∃ er, parse_grid_line [a, b, c, d] = .err er :=
  R.err_of_ne _ (fun ev => nook_grid_line a b c d h ev) (nopanic_grid_line a b c d)

theorem nopanic_cursor_goto (a b c : Value) :
    ¬ parse_cursor_goto [a, b, c] = R.panic := by
  simp [parse_cursor_goto]

theorem nook_cursor_goto (a b c : Value)
    (h : a.isInteger = false ∨ b.isInteger = false ∨ c.isInteger = false)
    (ev : RedrawEvent) : parse_cursor_goto [a, b, c] ≠ .ok ev := by
  rcases h with h | h | h <;>
    simp [parse_cursor_goto, parse_u64_wrong_type, parse_i64_wrong_type, parse_string_wrong_type,
      parse_bool_wrong_type, parse_array_wrong_type,
      parse_styled_content_wrong_type, parse_window_anchor_wrong_type, h]

theorem typeck_cursor_goto (a b c : Value)
    (h : a.isInteger = false ∨ b.isInteger = false ∨ c.isInteger = false) :
    ∃ er, parse_cursor_goto [a, b, c] = .err er :=
  R.err_of_ne _ (fun ev => nook_cursor_goto a b c h ev) (nopanic_cursor_goto a b c)

theorem nopanic_grid_scroll (a b c d e f g : Value) :
    ¬ parse_grid_scroll [a, b, c, d, e, f, g] = R.panic := by
  simp [parse_grid_scroll]

theorem nook_grid_scroll (a b c d e f g : Value)
    (h : a.isInteger = false ∨ b.isInteger = false ∨ c.isInteger = false ∨ d.isInteger = false ∨ e.isInteger = false ∨ f.isInteger = false ∨ g.isInteger = false)
    (ev : RedrawEvent) : parse_grid_scroll [a, b, c, d, e, f, g] ≠ .ok ev := by
  rcases h with h | h | h | h | h | h | h <;>
    simp [parse_grid_scroll, parse_u64_wrong_type, parse_i64_wrong_type, parse_string_wrong_type,
      parse_bool_wrong_type, parse_array_wrong_type,
      parse_styled_content_wrong_type, parse_window_anchor_wrong_type, h]

theorem typeck_grid_scroll (a b c d e f g : Value)
    (h : a.isInteger = false ∨ b.isInteger = false ∨ c.isInteger = false ∨ d.isInteger = false ∨ e.isInteger = false ∨ f.isInteger = false ∨ g.isInteger = false) :
    ∃ er, parse_grid_scroll [a, b, c, d, e, f, g] = .err er :=
  R.err_of_ne _ (fun ev => nook_grid_scroll a b c d e f g h ev) (nopanic_grid_scroll a b c d e f g)

theorem nopanic_win_pos (a b c d e f : Value) :
    ¬ parse_win_pos [a, b, c, d, e, f] = R.panic := by
  simp [parse_win_pos]

theorem nook_win_pos (a b c d e f : Value)
    (h : a.isInteger = false ∨ b.isInteger = false ∨ c.isInteger = false ∨ d.isInteger = false ∨ e.isInteger = false ∨ f.isInteger = false)
    (ev : RedrawEvent) : parse_win_pos [a, b, c, d, e, f] ≠ .ok ev := by
  rcases h with h | h | h | h | h | h <;>
    simp [parse_win_pos, parse_u64_wrong_type, parse_i64_wrong_type, parse_string_wrong_type,
      parse_bool_wrong_type, parse_array_wrong_type,
      parse_styled_content_wrong_type, parse_window_anchor_wrong_type, h]

theorem typeck_win_pos (a b c d e f : Value)
    (h : a.isInteger = false ∨ b.isInteger = false ∨ c.isInteger = false ∨ d.isInteger = false ∨ e.isInteger = false ∨ f.isInteger = false) :
    ∃ er, parse_win_pos [a, b, c, d, e, f] = .err er :=
  R.err_of_ne _ (fun ev => nook_win_pos a b c d e f h ev) (nopanic_win_pos a b c d e f)

theorem nopanic_win_float_pos (a b c d e f g : Value) :
    ¬ parse_win_float_pos [a, b, c, d, e, f, g] = R.panic := by
  simp [parse_win_float_pos]

theorem nook_win_float_pos (a b c d e f g : Value)
    (h : a.isInteger = false ∨ b.isInteger = false ∨ c.isString = false ∨ d.isInteger = false ∨ e.isInteger = false ∨ f.isInteger = false ∨ g.isBoolean = false)
    (ev : RedrawEvent) : parse_win_float_pos [a, b, c, d, e, f, g] ≠ .ok ev := by
  rcases h with h | h | h | h | h | h | h <;>
    simp [parse_win_float_pos, parse_u64_wrong_type, parse_i64_wrong_type, parse_string_wrong_type,
      parse_bool_wrong_type, parse_array_wrong_type,
      parse_styled_content_wrong_type, parse_window_anchor_wrong_type, h]

theorem typeck_win_float_pos (a b c d e f g : Value)
    (h : a.isInteger = false ∨ b.isInteger = false ∨ c.isString = false ∨ d.isInteger = false ∨ e.isInteger = false ∨ f.isInteger = false ∨ g.isBoolean = false) :
    ∃ er, parse_win_float_pos [a, b, c, d, e, f, g] = .err er :=
  R.err_of_ne _ (fun ev => nook_win_float_pos a b c d e f g h ev) (nopanic_win_float_pos a b c d e f g)

theorem nopanic_win_external_pos (a b : Value) :
    ¬ parse_win_external_pos [a, b] = R.panic := by
  simp [parse_win_external_pos]

theorem nook_win_external_pos (a b : Value)
    (h : a.isInteger = false ∨ b.isInteger = false)
    (ev : RedrawEvent) : parse_win_external_pos [a, b] ≠ .ok ev := by
  rcases h with h | h <;>
    simp [parse_win_external_pos, parse_u64_wrong_type, parse_i64_wrong_type, parse_string_wrong_type,
      parse_bool_wrong_type, parse_array_wrong_type,
      parse_styled_content_wrong_type, parse_window_anchor_wrong_type, h]

theorem typeck_win_external_pos (a b : Value)
    (h : a.isInteger = false ∨ b.isInteger = false) :
    ∃ er, parse_win_external_pos [a, b] = .err er :=
  R.err_of_ne _ (fun ev => nook_win_external_pos a b h ev) (nopanic_win_external_pos a b)

theorem nopanic_msg_set_pos (a b c d : Value) :
    ¬ parse_msg_set_pos [a, b, c, d] = R.panic := by
  simp [parse_msg_set_pos]

theorem nook_msg_set_pos (a b c d : Value)
    (h : a.isInteger = false ∨ b.isInteger = false ∨ c.isBoolean = false ∨ d.isString = false)
    (ev : RedrawEvent) : parse_msg_set_pos [a, b, c, d] ≠ .ok ev := by
  rcases h with h | h | h | h <;>
    simp [parse_msg_set_pos, parse_u64_wrong_type, parse_i64_wrong_type, parse_string_wrong_type,
      parse_bool_wrong_type, parse_array_wrong_type,
      parse_styled_content_wrong_type, parse_window_anchor_wrong_type, h]

theorem typeck_msg_set_pos (a b c d : Value)
    (h : a.isInteger = false ∨ b.isInteger = false ∨ c.isBoolean = false ∨ d.isString = false) :
    ∃ er, parse_msg_set_pos [a, b, c, d] = .err er :=
  R.err_of_ne _ (fun ev => nook_msg_set_pos a b c d h ev) (nopanic_msg_set_pos a b c d)

theorem nopanic_cmdline_show (a b c d e f : Value) :
    ¬ parse_cmdline_show [a, b, c, d, e, f] = R.panic := by
  simp [parse_cmdline_show]

theorem nook_cmdline_show (a b c d e f : Value)
    (h : a.isArray = false ∨ b.isInteger = false ∨ c.isString = false ∨ d.isString = false ∨ e.isInteger = false ∨ f.isInteger = false)
    (ev : RedrawEvent) : parse_cmdline_show [a, b, c, d, e, f] ≠ .ok ev := by
  rcases h with h | h | h | h | h | h <;>
    simp [parse_cmdline_show, parse_u64_wrong_type, parse_i64_wrong_type, parse_string_wrong_type,
      parse_bool_wrong_type, parse_array_wrong_type,
      parse_styled_content_wrong_type, parse_window_anchor_wrong_type, h]

theorem typeck_cmdline_show (a b c d e f : Value)
    (h : a.isArray = false ∨ b.isInteger = false ∨ c.isString = false ∨ d.isString = false ∨ e.isInteger = false ∨ f.isInteger = false) :
    ∃ er, parse_cmdline_show [a, b, c, d, e, f] = .err er :=
  R.err_of_ne _ (fun ev => nook_cmdline_show a b c d e f h ev) (nopanic_cmdline_show a b c d e f)

theorem nopanic_cmdline_pos (a b : Value) :
    ¬ parse_cmdline_pos [a, b] = R.panic := by
  simp [parse_cmdline_pos]

theorem nook_cmdline_pos (a b : Value)
    (h : a.isInteger = false ∨ b.isInteger = false)
    (ev : RedrawEvent) : parse_cmdline_pos [a, b] ≠ .ok ev := by
  rcases h with h | h <;>
    simp [parse_cmdline_pos, parse_u64_wrong_type, parse_i64_wrong_type, parse_string_wrong_type,
      parse_bool_wrong_type, parse_array_wrong_type,
      parse_styled_content_wrong_type, parse_window_anchor_wrong_type, h]

theorem typeck_cmdline_pos (a b : Value)
    (h : a.isInteger = false ∨ b.isInteger = false) :
    ∃ er, parse_cmdline_pos [a, b] = .err er :=
  R.err_of_ne _ (fun ev => nook_cmdline_pos a b h ev) (nopanic_cmdline_pos a b)

theorem nopanic_cmdline_special_char (a b c : Value) :
    ¬ parse_cmdline_special_char [a, b, c] = R.panic := by
  simp [parse_cmdline_special_char]

theorem nook_cmdline_special_char (a b c : Value)
    (h : a.isString = false ∨ b.isBoolean = false ∨ c.isInteger = false)
    (ev : RedrawEvent) : parse_cmdline_special_char [a, b, c] ≠ .ok ev := by
  rcases h with h | h | h <;>
    simp [parse_cmdline_special_char, parse_u64_wrong_type, parse_i64_wrong_type, parse_string_wrong_type,
      parse_bool_wrong_type, parse_array_wrong_type,
      parse_styled_content_wrong_type, parse_window_anchor_wrong_type, h]

theorem typeck_cmdline_special_char (a b c : Value)
    (h : a.isString = false ∨ b.isBoolean = false ∨ c.isInteger = false) :
    ∃ er, parse_cmdline_special_char [a, b, c] = .err er :=
  R.err_of_ne _ (fun ev => nook_cmdline_special_char a b c h ev) (nopanic_cmdline_special_char a b c)

theorem nopanic_msg_show (a b c : Value) :
    ¬ parse_msg_show [a, b, c] = R.panic := by
  simp [parse_msg_show]

theorem nook_msg_show (a b c : Value)
    (h : a.isString = false ∨ b.isArray = false ∨ c.isBoolean = false)
    (ev : RedrawEvent) : parse_msg_show [a, b, c] ≠ .ok ev := by
  rcases h with h | h | h <;>
    simp [parse_msg_show, parse_u64_wrong_type, parse_i64_wrong_type, parse_string_wrong_type,
      parse_bool_wrong_type, parse_array_wrong_type,
      parse_styled_content_wrong_type, parse_window_anchor_wrong_type, h]

theorem typeck_msg_show (a b c : Value)
    (h : a.isString = false ∨ b.isArray = false ∨ c.isBoolean = false) :
    ∃ er, parse_msg_show [a, b, c] = .err er :=
  R.err_of_ne _ (fun ev => nook_msg_show a b c h ev) (nopanic_msg_show a b c)

theorem typeck_set_title (v : Value) (h : v.isString = false) :
    parse_set_title [v] = .err (.InvalidString v) := by
  simp [parse_set_title, parse_string_wrong_type v h]

theorem typeck_mode_info_set (a v : Value) (h : v.isArray = false) :
    parse_mode_info_set [a, v] = .err (.InvalidArray v) := by
  simp [parse_mode_info_set, parse_array_wrong_type v h]

theorem typeck_option_set (v b : Value) (h : v.isString = false) :
    parse_option_set [v, b] = .err (.InvalidString v) := by
  simp [parse_option_set, parse_string_wrong_type v h]

theorem typeck_mode_change (a v : Value) (h : v.isInteger = false) :
    parse_mode_change [a, v] = .err (.InvalidU64 v) := by
  simp [parse_mode_change, parse_u64_wrong_type v h]

theorem typeck_clear (v : Value) (h : v.isInteger = false) :
    parse_clear [v] = .err (.InvalidU64 v) := by
  simp [parse_clear, parse_u64_wrong_type v h]

theorem typeck_win_hide (v : Value) (h : v.isInteger = false) :
    parse_win_hide [v] = .err (.InvalidU64 v) := by
  simp [parse_win_hide, parse_u64_wrong_type v h]

theorem typeck_win_close (v : Value) (h : v.isInteger = false) :
    parse_win_close [v] = .err (.InvalidU64 v) := by
  simp [parse_win_close, parse_u64_wrong_type v h]

theorem typeck_cmdline_block_show (v : Value) (h : v.isArray = false) :
    parse_cmdline_block_show [v] = .err (.InvalidArray v) := by
  simp [parse_cmdline_block_show, parse_array_wrong_type v h]

theorem typeck_cmdline_block_append (v : Value) (h : v.isArray = false) :
    parse_cmdline_block_append [v] = .err (.InvalidArray v) := by
  simp [parse_cmdline_block_append, parse_styled_content_wrong_type v h]

theorem typeck_msg_showmode (v : Value) (h : v.isArray = false) :
    parse_msg_showmode [v] = .err (.InvalidArray v) := by
  simp [parse_msg_showmode, parse_styled_content_wrong_type v h]

theorem typeck_msg_showcmd (v : Value) (h : v.isArray = false) :
    parse_msg_showcmd [v] = .err (.InvalidArray v) := by
  simp [parse_msg_showcmd, parse_styled_content_wrong_type v h]

theorem typeck_msg_ruler (v : Value) (h : v.isArray = false) :
    parse_msg_ruler [v] = .err (.InvalidArray v) := by
  simp [parse_msg_ruler, parse_styled_content_wrong_type v h]

theorem typeck_msg_history_show (v : Value) (h : v.isArray = false) :
    parse_msg_history_show [v] = .err (.InvalidArray v) := by
  simp [parse_msg_history_show, parse_array_wrong_type v h]

theorem typeck_hl_attr_define (a b c d : Value)
    (h : a.isInteger = false ∨ b.isMapValue = false) :
    (∃ er, parse_hl_attr_define [a, b, c, d] = .err er) ∨
      parse_hl_attr_define [a, b, c, d] = .panic := by
  rcases h with h | h
  · cases hs : parse_style b with
    | ok s =>
        exact Or.inl ⟨.InvalidU64 a,
          by simp [parse_hl_attr_define, hs, parse_u64_wrong_type a h]⟩
    | err e => exact Or.inl ⟨e, by simp [parse_hl_attr_define, hs]⟩
    | panic => exact Or.inr (by simp [parse_hl_attr_define, hs])
  · exact Or.inl ⟨.InvalidMap b,
      by simp [parse_hl_attr_define, parse_style_wrong_type b h]⟩

theorem optval_arabicshape (v : Value) (h : v.isBoolean = false) :
    parse_option_set [vstr "arabicshape", v] = .err (.InvalidBool v) := by
  simp [parse_option_set, parse_bool_wrong_type v h]

theorem optval_ambiwidth (v : Value) (h : v.isString = false) :
    parse_option_set [vstr "ambiwidth", v] = .err (.InvalidString v) := by
  simp [parse_option_set, parse_string_wrong_type v h]

theorem optval_emoji (v : Value) (h : v.isBoolean = false) :
    parse_option_set [vstr "emoji", v] = .err (.InvalidBool v) := by
  simp [parse_option_set, parse_bool_wrong_type v h]

theorem optval_guifont (v : Value) (h : v.isString = false) :
    parse_option_set [vstr "guifont", v] = .err (.InvalidString v) := by
  simp [parse_option_set, parse_string_wrong_type v h]

theorem optval_guifontset (v : Value) (h : v.isString = false) :
    parse_option_set [vstr "guifontset", v] = .err (.InvalidString v) := by
  simp [parse_option_set, parse_string_wrong_type v h]

theorem optval_guifontwide (v : Value) (h : v.isString = false) :
    parse_option_set [vstr "guifontwide", v] = .err (.InvalidString v) := by
  simp [parse_option_set, parse_string_wrong_type v h]

theorem optval_linespace (v : Value) (h : v.isInteger = false) :
    parse_option_set [vstr "linespace", v] = .err (.InvalidU64 v) := by
  simp [parse_option_set, parse_u64_wrong_type v h]

theorem optval_pumblend (v : Value) (h : v.isInteger = false) :
    parse_option_set [vstr "pumblend", v] = .err (.InvalidU64 v) := by
  simp [parse_option_set, parse_u64_wrong_type v h]

theorem optval_showtabline (v : Value) (h : v.isInteger = false) :
    parse_option_set [vstr "showtabline", v] = .err (.InvalidU64 v) := by
  simp [parse_option_set, parse_u64_wrong_type v h]

theorem optval_termguicolors (v : Value) (h : v.isBoolean = false) :
    parse_option_set [vstr "termguicolors", v] = .err (.InvalidBool v) := by
  simp [parse_option_set, parse_bool_wrong_type v h]

theorem ignored_mode_change (x : Value) (n : Nat) :
    parse_mode_change [x, vnat n] = .ok (.ModeChange n) := rfl

theorem ignored_mode_info_set (x : Value) :
    parse_mode_info_set [x, .Array []] = .ok (.ModeInfoSet []) := rfl

theorem ignored_default_colors (x y : Value) (f b s : Nat) :
    parse_default_colors [vnat f, vnat b, vnat s, x, y] =
      .ok (.DefaultColorsSet (Colors.new (some (unpack_color f))
        (some (unpack_color b)) (some (unpack_color s)))) := rfl

theorem ignored_hl_attr_define (x y : Value) (i : Nat) :
    parse_hl_attr_define [vnat i, .Map [], x, y] =
      .ok (.HighlightAttributesDefine i (Style.new (Colors.new none none none))) := rfl

theorem nullary_busy_start_accepts_any_batch (content : List Value) :
    parse_redraw_event (.Array [vstr "busy_start", .Array content]) = .ok [.BusyStart] := rfl

theorem nullary_busy_stop_accepts_any_batch (content : List Value) :
    parse_redraw_event (.Array [vstr "busy_stop", .Array content]) = .ok [.BusyStop] := rfl

theorem nullary_flush_accepts_any_batch (content : List Value) :
    parse_redraw_event (.Array [vstr "flush", .Array content]) = .ok [.Flush] := rfl

theorem nullary_cmdline_hide_accepts_any_batch (content : List Value) :
    parse_redraw_event (.Array [vstr "cmdline_hide", .Array content]) = .ok [.CommandLineHide] := rfl

theorem nullary_cmdline_block_hide_accepts_any_batch (content : List Value) :
    parse_redraw_event (.Array [vstr "cmdline_block_hide", .Array content]) = .ok [.CommandLineBlockHide] := rfl

theorem nullary_msg_clear_accepts_any_batch (content : List Value) :
    parse_redraw_event (.Array [vstr "msg_clear", .Array content]) = .ok [.MessageClear] := rfl


/-- Counterexamples to claim C1 as stated, one per deviation: the nullary tag
`busy_start` accepts a wrong-arity argument tuple; the event-less `set_icon`
arm accepts a wrong-arity, wrong-typed tuple; a wrong-typed element in a
position the decoder never inspects (`mode_change`'s mode name, a string per
protocol, here a boolean) is accepted; and a wrong-typed element in an
inspected position of `hl_attr_define` can panic (claim C2's bug) instead of
returning the DecodeError the claim demands. -/
theorem decoder_leniency_counterexamples :
    parse_redraw_event (.Array [vstr "busy_start", .Array [vnat 1]]) =
      .ok [.BusyStart] ∧
    parse_redraw_event (.Array [vstr "set_icon", .Array [vnat 1, vnat 2]]) =
      .ok [] ∧
    parse_redraw_event (.Array [vstr "mode_change", .Array [.Boolean true, vnat 3]]) =
      .ok [.ModeChange 3] ∧
    parse_hl_attr_define [.Nil, .Map [(vstr "foreground", vneg (-1))], .Map [], .Map []] =
      .panic :=
  ⟨rfl, rfl, rfl, rfl⟩

/-- Claim C1 as amended: for every recognized event tag with an argument
parser (all dispatch arms except the six nullary tags and the event-less
`set_icon` arm), a batch whose argument tuple has the wrong arity yields a
DecodeError, and a correct-arity batch whose element at a position the
decoder inspects has a wrong wire type yields a DecodeError — except that
`hl_attr_define` can instead hit claim C2's panic, since its style-map
argument is evaluated before its id; the six nullary tags accept any array
batch regardless of its contents, and wrong-typed elements at the positions
the decoder never inspects are accepted.  Wrong wire type is universally
quantified: for each inspected position, every value failing that position's
wire-type discriminator is covered, including the value positions of all ten
known `option_set` names. -/
theorem event_arity_and_type_checking :
    (∀ args : List Value, args.length ≠ 1 →
      parse_set_title args = .err .InvalidEventFormat) ∧
    (∀ a b c : Value, (a.isInteger = false ∨ b.isInteger = false ∨ c.isInteger = false) →
      ∃ er, parse_grid_resize [a, b, c] = .err er) ∧
    (∀ args : List Value, args.length ≠ 2 →
      parse_mode_info_set args = .err .InvalidEventFormat) ∧
    (∀ args : List Value, args.length ≠ 2 →
      parse_option_set args = .err .InvalidEventFormat) ∧
    (∀ args : List Value, args.length ≠ 2 →
      parse_mode_change args = .err .InvalidEventFormat) ∧
    (∀ args : List Value, args.length ≠ 3 →
      parse_grid_resize args = .err .InvalidEventFormat) ∧
    (∀ args : List Value, args.length ≠ 5 →
      parse_default_colors args = .err .InvalidEventFormat) ∧
    (∀ args : List Value, args.length ≠ 4 →
      parse_hl_attr_define args = .err .InvalidEventFormat) ∧
    (∀ args : List Value, args.length ≠ 4 →
      parse_grid_line args = .err .InvalidEventFormat) ∧
    (∀ args : List Value, args.length ≠ 1 →
      parse_clear args = .err .InvalidEventFormat) ∧
    (∀ args : List Value, args.length ≠ 3 →
      parse_cursor_goto args = .err .InvalidEventFormat) ∧
    (∀ args : List Value, args.length ≠ 7 →
      parse_grid_scroll args = .err .InvalidEventFormat) ∧
    (∀ args : List Value, args.length ≠ 6 →
      parse_win_pos args = .err .InvalidEventFormat) ∧
    (∀ args : List Value, args.length ≠ 7 →
      parse_win_float_pos args = .err .InvalidEventFormat) ∧
    (∀ args : List Value, args.length ≠ 2 →
      parse_win_external_pos args = .err .InvalidEventFormat) ∧
    (∀ args : List Value, args.length ≠ 1 →
      parse_win_hide args = .err .InvalidEventFormat) ∧
    (∀ args : List Value, args.length ≠ 1 →
      parse_win_close args = .err .InvalidEventFormat) ∧
    (∀ args : List Value, args.length ≠ 4 →
      parse_msg_set_pos args = .err .InvalidEventFormat) ∧
    (∀ args : List Value, args.length ≠ 6 →
      parse_cmdline_show args = .err .InvalidEventFormat) ∧
    (∀ args : List Value, args.length ≠ 2 →
      parse_cmdline_pos args = .err .InvalidEventFormat) ∧
    (∀ args : List Value, args.length ≠ 3 →
      parse_cmdline_special_char args = .err .InvalidEventFormat) ∧
    (∀ args : List Value, args.length ≠ 1 →
      parse_cmdline_block_show args = .err .InvalidEventFormat) ∧
    (∀ args : List Value, args.length ≠ 1 →
      parse_cmdline_block_append args = .err .InvalidEventFormat) ∧
    (∀ args : List Value, args.length ≠ 3 →
      parse_msg_show args = .err .InvalidEventFormat) ∧
    (∀ args : List Value, args.length ≠ 1 →
      parse_msg_showmode args = .err .InvalidEventFormat) ∧
    (∀ args : List Value, args.length ≠ 1 →
      parse_msg_showcmd args = .err .InvalidEventFormat) ∧
    (∀ args : List Value, args.length ≠ 1 →
      parse_msg_ruler args = .err .InvalidEventFormat) ∧
    (∀ args : List Value, args.length ≠ 1 →
      parse_msg_history_show args = .err .InvalidEventFormat) ∧
    (∀ v : Value, v.isString = false →
      parse_set_title [v] = .err (.InvalidString v)) ∧
    (∀ a v : Value, v.isArray = false →
      parse_mode_info_set [a, v] = .err (.InvalidArray v)) ∧
    (∀ v b : Value, v.isString = false →
      parse_option_set [v, b] = .err (.InvalidString v)) ∧
    (∀ a v : Value, v.isInteger = false →
      parse_mode_change [a, v] = .err (.InvalidU64 v)) ∧
    (∀ a b c d e : Value, (a.isInteger = false ∨ b.isInteger = false ∨ c.isInteger = false) →
      ∃ er, parse_default_colors [a, b, c, d, e] = .err er) ∧
    (∀ a b c d : Value, (a.isInteger = false ∨ b.isMapValue = false) →
      (∃ er, parse_hl_attr_define [a, b, c, d] = .err er) ∨
        parse_hl_attr_define [a, b, c, d] = .panic) ∧
    (∀ a b c d : Value, (a.isInteger = false ∨ b.isInteger = false ∨ c.isInteger = false ∨ d.isArray = false) →
      ∃ er, parse_grid_line [a, b, c, d] = .err er) ∧
    (∀ v : Value, v.isInteger = false →
      parse_clear [v] = .err (.InvalidU64 v)) ∧
    (∀ a b c : Value, (a.isInteger = false ∨ b.isInteger = false ∨ c.isInteger = false) →
      ∃ er, parse_cursor_goto [a, b, c] = .err er) ∧
    (∀ a b c d e f g : Value, (a.isInteger = false ∨ b.isInteger = false ∨ c.isInteger = false ∨ d.isInteger = false ∨ e.isInteger = false ∨ f.isInteger = false ∨ g.isInteger = false) →
      ∃ er, parse_grid_scroll [a, b, c, d, e, f, g] = .err er) ∧
    (∀ a b c d e f : Value, (a.isInteger = false ∨ b.isInteger = false ∨ c.isInteger = false ∨ d.isInteger = false ∨ e.isInteger = false ∨ f.isInteger = false) →
      ∃ er, parse_win_pos [a, b, c, d, e, f] = .err er) ∧
    (∀ a b c d e f g : Value, (a.isInteger = false ∨ b.isInteger = false ∨ c.isString = false ∨ d.isInteger = false ∨ e.isInteger = false ∨ f.isInteger = false ∨ g.isBoolean = false) →
      ∃ er, parse_win_float_pos [a, b, c, d, e, f, g] = .err er) ∧
    (∀ a b : Value, (a.isInteger = false ∨ b.isInteger = false) →
      ∃ er, parse_win_external_pos [a, b] = .err er) ∧
    (∀ v : Value, v.isInteger = false →
      parse_win_hide [v] = .err (.InvalidU64 v)) ∧
    (∀ v : Value, v.isInteger = false →
      parse_win_close [v] = .err (.InvalidU64 v)) ∧
    (∀ a b c d : Value, (a.isInteger = false ∨ b.isInteger = false ∨ c.isBoolean = false ∨ d.isString = false) →
      ∃ er, parse_msg_set_pos [a, b, c, d] = .err er) ∧
    (∀ a b c d e f : Value, (a.isArray = false ∨ b.isInteger = false ∨ c.isString = false ∨ d.isString = false ∨ e.isInteger = false ∨ f.isInteger = false) →
      ∃ er, parse_cmdline_show [a, b, c, d, e, f] = .err er) ∧
    (∀ a b : Value, (a.isInteger = false ∨ b.isInteger = false) →
      ∃ er, parse_cmdline_pos [a, b] = .err er) ∧
    (∀ a b c : Value, (a.isString = false ∨ b.isBoolean = false ∨ c.isInteger = false) →
      ∃ er, parse_cmdline_special_char [a, b, c] = .err er) ∧
    (∀ v : Value, v.isArray = false →
      parse_cmdline_block_show [v] = .err (.InvalidArray v)) ∧
    (∀ v : Value, v.isArray = false →
      parse_cmdline_block_append [v] = .err (.InvalidArray v)) ∧
    (∀ a b c : Value, (a.isString = false ∨ b.isArray = false ∨ c.isBoolean = false) →
      ∃ er, parse_msg_show [a, b, c] = .err er) ∧
    (∀ v : Value, v.isArray = false →
      parse_msg_showmode [v] = .err (.InvalidArray v)) ∧
    (∀ v : Value, v.isArray = false →
      parse_msg_showcmd [v] = .err (.InvalidArray v)) ∧
    (∀ v : Value, v.isArray = false →
      parse_msg_ruler [v] = .err (.InvalidArray v)) ∧
    (∀ v : Value, v.isArray = false →
      parse_msg_history_show [v] = .err (.InvalidArray v)) ∧
    (∀ v : Value, v.isBoolean = false →
      parse_option_set [vstr "arabicshape", v] = .err (.InvalidBool v)) ∧
    (∀ v : Value, v.isString = false →
      parse_option_set [vstr "ambiwidth", v] = .err (.InvalidString v)) ∧
    (∀ v : Value, v.isBoolean = false →
      parse_option_set [vstr "emoji", v] = .err (.InvalidBool v)) ∧
    (∀ v : Value, v.isString = false →
      parse_option_set [vstr "guifont", v] = .err (.InvalidString v)) ∧
    (∀ v : Value, v.isString = false →
      parse_option_set [vstr "guifontset", v] = .err (.InvalidString v)) ∧
    (∀ v : Value, v.isString = false →
      parse_option_set [vstr "guifontwide", v] = .err (.InvalidString v)) ∧
    (∀ v : Value, v.isInteger = false →
      parse_option_set [vstr "linespace", v] = .err (.InvalidU64 v)) ∧
    (∀ v : Value, v.isInteger = false →
      parse_option_set [vstr "pumblend", v] = .err (.InvalidU64 v)) ∧
    (∀ v : Value, v.isInteger = false →
      parse_option_set [vstr "showtabline", v] = .err (.InvalidU64 v)) ∧
    (∀ v : Value, v.isBoolean = false →
      parse_option_set [vstr "termguicolors", v] = .err (.InvalidBool v)) ∧
    (∀ content : List Value,
      parse_redraw_event (.Array [vstr "busy_start", .Array content]) = .ok [.BusyStart]) ∧
    (∀ content : List Value,
      parse_redraw_event (.Array [vstr "busy_stop", .Array content]) = .ok [.BusyStop]) ∧
    (∀ content : List Value,
      parse_redraw_event (.Array [vstr "flush", .Array content]) = .ok [.Flush]) ∧
    (∀ content : List Value,
      parse_redraw_event (.Array [vstr "cmdline_hide", .Array content]) = .ok [.CommandLineHide]) ∧
    (∀ content : List Value,
      parse_redraw_event (.Array [vstr "cmdline_block_hide", .Array content]) = .ok [.CommandLineBlockHide]) ∧
    (∀ content : List Value,
      parse_redraw_event (.Array [vstr "msg_clear", .Array content]) = .ok [.MessageClear]) ∧
    (∀ (x : Value) (n : Nat),
      parse_mode_change [x, vnat n] = .ok (.ModeChange n)) ∧
    (∀ x : Value, parse_mode_info_set [x, .Array []] = .ok (.ModeInfoSet [])) ∧
    (∀ (x y : Value) (f b s : Nat),
      parse_default_colors [vnat f, vnat b, vnat s, x, y] =
        .ok (.DefaultColorsSet (Colors.new (some (unpack_color f))
          (some (unpack_color b)) (some (unpack_color s))))) ∧
    (∀ (x y : Value) (i : Nat),
      parse_hl_attr_define [vnat i, .Map [], x, y] =
        .ok (.HighlightAttributesDefine i (Style.new (Colors.new none none none)))) :=
  ⟨arity_err_set_title,
   typeck_grid_resize,
   arity_err_mode_info_set,
   arity_err_option_set,
   arity_err_mode_change,
   arity_err_grid_resize,
   arity_err_default_colors,
   arity_err_hl_attr_define,
   arity_err_grid_line,
   arity_err_clear,
   arity_err_cursor_goto,
   arity_err_grid_scroll,
   arity_err_win_pos,
   arity_err_win_float_pos,
   arity_err_win_external_pos,
   arity_err_win_hide,
   arity_err_win_close,
   arity_err_msg_set_pos,
   arity_err_cmdline_show,
   arity_err_cmdline_pos,
   arity_err_cmdline_special_char,
   arity_err_cmdline_block_show,
   arity_err_cmdline_block_append,
   arity_err_msg_show,
   arity_err_msg_showmode,
   arity_err_msg_showcmd,
   arity_err_msg_ruler,
   arity_err_msg_history_show,
   typeck_set_title,
   typeck_mode_info_set,
   typeck_option_set,
   typeck_mode_change,
   typeck_default_colors,
   typeck_hl_attr_define,
   typeck_grid_line,
   typeck_clear,
   typeck_cursor_goto,
   typeck_grid_scroll,
   typeck_win_pos,
   typeck_win_float_pos,
   typeck_win_external_pos,
   typeck_win_hide,
   typeck_win_close,
   typeck_msg_set_pos,
   typeck_cmdline_show,
   typeck_cmdline_pos,
   typeck_cmdline_special_char,
   typeck_cmdline_block_show,
   typeck_cmdline_block_append,
   typeck_msg_show,
   typeck_msg_showmode,
   typeck_msg_showcmd,
   typeck_msg_ruler,
   typeck_msg_history_show,
   optval_arabicshape,
   optval_ambiwidth,
   optval_emoji,
   optval_guifont,
   optval_guifontset,
   optval_guifontwide,
   optval_linespace,
   optval_pumblend,
   optval_showtabline,
   optval_termguicolors,
   nullary_busy_start_accepts_any_batch,
   nullary_busy_stop_accepts_any_batch,
   nullary_flush_accepts_any_batch,
   nullary_cmdline_hide_accepts_any_batch,
   nullary_cmdline_block_hide_accepts_any_batch,
   nullary_msg_clear_accepts_any_batch,
   ignored_mode_change,
   ignored_mode_info_set,
   ignored_default_colors,
   ignored_hl_attr_define⟩

/-- Closed instances of one arity hypothesis and one wrong-type hypothesis of
the arity/type theorem. -/
theorem event_arity_and_type_checking_witness :
    parse_set_title [] = .err .InvalidEventFormat ∧
    ∃ er, parse_grid_resize [.Nil, vnat 80, vnat 24] = .err er :=
  ⟨event_arity_and_type_checking.1 [] (by decide),
   event_arity_and_type_checking.2.1 .Nil (vnat 80) (vnat 24) (Or.inl rfl)⟩

end Neovide
